import Mathlib

/-!
Verification of the Battery History Format 2 parser
(`parseutils/battery_history_format_v2.go`).

Go strings are modelled as `List Char`; Go maps as association lists wrapped
in `Option` (`none` models a nil map, `some l` a made map); Go's
`(*T, error)` results as `Option`; machine integers as `Int` (the code only
stores values that `strconv.ParseInt` accepted for the declared bit size, so
no wrapping can occur).  The Go regular expressions are concrete patterns
whose leftmost, greedy match semantics is implemented directly by character
scanners; the call to `time.Now()` in the timestamp fallback is modelled by
an explicit `now` parameter.
-/

set_option maxHeartbeats 1000000

/-- Go strings, modelled as lists of characters. -/
abbrev Str := List Char

/-- RE2 character class `\d` (ASCII digits, code points 48-57, as in Go's
`regexp`). -/
def isDigitC (c : Char) : Bool := 48 ≤ c.toNat && c.toNat ≤ 57

/-- RE2 character class `\w` = `[0-9A-Za-z_]`. -/
def isWordC (c : Char) : Bool :=
  (65 ≤ c.toNat && c.toNat ≤ 90) || (97 ≤ c.toNat && c.toNat ≤ 122) ||
  isDigitC c || c = '_'

/-- RE2 character class `\s` = `[\t\n\f\r ]`. -/
def isSpaceRE (c : Char) : Bool :=
  c = ' ' || c = '\t' || c = '\n' || c = '\x0c' || c = '\r'

/-- The character class `[0-9a-f]` of the history-line pattern. -/
def isHexLowerC (c : Char) : Bool :=
  isDigitC c || (97 ≤ c.toNat && c.toNat ≤ 102)

/-- The character class `[^,\s]` of the key=value pattern. -/
def isValueC (c : Char) : Bool := !(c = ',' || isSpaceRE c)

/-- Go `unicode.IsSpace` (code points of the White_Space property), used by
`strings.TrimSpace`. -/
def isGoSpace (c : Char) : Bool :=
  c.toNat = 32 || c.toNat = 9 || c.toNat = 10 || c.toNat = 11 ||
  c.toNat = 12 || c.toNat = 13 ||
  c.toNat = 0x85 || c.toNat = 0xA0 || c.toNat = 0x1680 ||
  (0x2000 ≤ c.toNat && c.toNat ≤ 0x200A) || c.toNat = 0x2028 ||
  c.toNat = 0x2029 || c.toNat = 0x202F || c.toNat = 0x205F || c.toNat = 0x3000

/-- Go `strings.TrimSpace`. -/
def trimSpace (s : Str) : Str :=
  ((s.dropWhile isGoSpace).reverse.dropWhile isGoSpace).reverse

/-- Lookup in an association list modelling a Go map. -/
def mapFind {α : Type} : List (Str × α) → Str → Option α
  | [], _ => none
  | (k0, v0) :: t, k => if k0 = k then some v0 else mapFind t k

/-- Go map assignment `m[k] = v` on a made map: replace in place or append. -/
def mapSet {α : Type} : List (Str × α) → Str → α → List (Str × α)
  | [], k, v => [(k, v)]
  | (k0, v0) :: t, k, v =>
    if k0 = k then (k0, v) :: t else (k0, v0) :: mapSet t k v

/-- A sequence of Go map assignments, performed left to right. -/
def mapWrites {α : Type} (m : List (Str × α)) (l : List (Str × α)) :
    List (Str × α) :=
  l.foldl (fun m kv => mapSet m kv.1 kv.2) m

/-- Lookup through the `Option` wrapper (`none` models a nil Go map). -/
def goFind {α : Type} (m : Option (List (Str × α))) (k : Str) : Option α :=
  m.bind (fun l => mapFind l k)

/-- Assignment through the `Option` wrapper.  The Go program only ever
assigns into maps it has just allocated with `make`, so the `none` case is
never exercised by any theorem below. -/
def goSet {α : Type} (m : Option (List (Str × α))) (k : Str) (v : α) :
    Option (List (Str × α)) :=
  m.map (fun l => mapSet l k v)

/-- Numeric value of an ASCII digit. -/
def digitVal (c : Char) : Nat := c.toNat - 48

/-- Value of a nonempty ASCII digit string. -/
def digitsToNat (l : Str) : Nat := l.foldl (fun n c => 10 * n + digitVal c) 0

/-- Go `strconv.ParseInt(value, 10, bits)`: optional sign, nonempty ASCII
digits, and a range check against the declared bit size; any failure is an
error, modelled as `none`. -/
def parseGoInt (bits : Nat) (s : Str) : Option Int :=
  match s with
  | '+' :: t =>
    if t.isEmpty || !(t.all isDigitC) then none
    else
      let v : Int := (digitsToNat t : Nat)
      if -(2 ^ (bits - 1) : Int) ≤ v ∧ v ≤ 2 ^ (bits - 1) - 1 then some v
      else none
  | '-' :: t =>
    if t.isEmpty || !(t.all isDigitC) then none
    else
      let v : Int := -((digitsToNat t : Nat) : Int)
      if -(2 ^ (bits - 1) : Int) ≤ v ∧ v ≤ 2 ^ (bits - 1) - 1 then some v
      else none
  | t =>
    if t.isEmpty || !(t.all isDigitC) then none
    else
      let v : Int := (digitsToNat t : Nat)
      if -(2 ^ (bits - 1) : Int) ≤ v ∧ v ≤ 2 ^ (bits - 1) - 1 then some v
      else none

/-- Go `fmt.Sprintf("%d", i)` for a signed integer. -/
def goIntToStr (i : Int) : Str :=
  if i < 0 then '-' :: Nat.toDigits 10 (-i).toNat
  else Nat.toDigits 10 i.toNat

/-- Matcher for `\d{2}-\d{2}` at the start of the string, returning the
matched text and the rest. -/
def matchMD : Str → Option (Str × Str)
  | a :: b :: e :: c :: d :: rest =>
    if isDigitC a && isDigitC b && e = '-' && isDigitC c && isDigitC d then
      some ([a, b, e, c, d], rest)
    else none
  | _ => none

/-- Matcher for `\d{2}:\d{2}:\d{2}\.\d{3}` at the start of the string. -/
def matchTime : Str → Option (Str × Str)
  | h1 :: h2 :: c1 :: m1 :: m2 :: c2 :: s1 :: s2 :: c3 :: x1 :: x2 :: x3 :: rest =>
    if isDigitC h1 && isDigitC h2 && c1 = ':' && isDigitC m1 && isDigitC m2 &&
       c2 = ':' && isDigitC s1 && isDigitC s2 && c3 = '.' && isDigitC x1 &&
       isDigitC x2 && isDigitC x3 then
      some ([h1, h2, c1, m1, m2, c2, s1, s2, c3, x1, x2, x3], rest)
    else none
  | _ => none

/-- Greedy matcher for a nonempty run of characters satisfying `p`. -/
def takeWhile1 (p : Char → Bool) (s : Str) : Option (Str × Str) :=
  match s.takeWhile p with
  | [] => none
  | t => some (t, s.dropWhile p)

/-- The five capture groups of the history-line pattern
`^(\d{2}-\d{2})\s+(\d{2}:\d{2}:\d{2}\.\d{3})\s+(\d+)\s+([0-9a-f]+)\s+(.*)$`. -/
structure HistoryGroups where
  monthDay : Str
  timeOfDay : Str
  seqNum : Str
  stateMask : Str
  remainder : Str
deriving DecidableEq, Repr

/-- Anchored match of `historyLinePatternV2` against the whole string.  The
pattern's components are separated by disjoint character classes, so the
greedy (maximal-munch) decomposition implemented here is the unique one; the
final `(.*)$` succeeds exactly when the residue after the last whitespace
run contains no newline, since `.` matches every character except `\n`. -/
def historyMatchV2 (s : Str) : Option HistoryGroups := do
  let (md, s1) ← matchMD s
  let (_, s2) ← takeWhile1 isSpaceRE s1
  let (tod, s3) ← matchTime s2
  let (_, s4) ← takeWhile1 isSpaceRE s3
  let (sq, s5) ← takeWhile1 isDigitC s4
  let (_, s6) ← takeWhile1 isSpaceRE s5
  let (hx, s7) ← takeWhile1 isHexLowerC s6
  let (_, s8) ← takeWhile1 isSpaceRE s7
  if s8.contains '\n' then none else some ⟨md, tod, sq, hx, s8⟩

/-- One step of `FindAllStringSubmatch` for `(\w+)=([^,\s]+)`: a match starts
at a word character whose maximal word run is immediately followed by `=`
and a nonempty run of value characters; scanning resumes after the value,
and failed starts advance per leftmost-match semantics.  The fuel argument
only bounds the recursion and is always at least the string length. -/
def kvScanAux : Nat → Str → List (Str × Str)
  | 0, _ => []
  | _ + 1, [] => []
  | fuel + 1, c :: rest =>
    if isWordC c then
      match (c :: rest).dropWhile isWordC with
      | '=' :: rest2 =>
        match rest2.takeWhile isValueC with
        | [] => kvScanAux fuel rest2
        | v => ((c :: rest).takeWhile isWordC, v) ::
            kvScanAux fuel (rest2.dropWhile isValueC)
      | rest2 => kvScanAux fuel rest2
    else kvScanAux fuel rest

/-- All matches of `keyValuePattern` in the line, as (key, value) pairs. -/
def kvScan (s : Str) : List (Str × Str) := kvScanAux s.length s

/-- All matches of `stateTransitionPattern` `([+-])(\w+)`, each with its
start position, sign character and state name. -/
def toggleScanAux : Nat → Nat → Str → List (Nat × Char × Str)
  | 0, _, _ => []
  | _ + 1, _, [] => []
  | fuel + 1, i, c :: rest =>
    if (c = '+' || c = '-') &&
       (match rest with | r :: _ => isWordC r | [] => false) then
      (i, c, rest.takeWhile isWordC) ::
        toggleScanAux fuel (i + 1 + (rest.takeWhile isWordC).length)
          (rest.dropWhile isWordC)
    else toggleScanAux fuel (i + 1) rest

/-- All matches of the state-transition pattern in the line. -/
def toggleScan (s : Str) : List (Nat × Char × Str) :=
  toggleScanAux s.length 0 s

/-- All matches of `wake_reason=\d+:"([^"]+)"`, returning the quoted text
with the quotes stripped. -/
def wakeScanAux : Nat → Str → List Str
  | 0, _ => []
  | _ + 1, [] => []
  | fuel + 1, c :: rest =>
    if "wake_reason=".toList.isPrefixOf (c :: rest) then
      match (c :: rest).drop 12 with
      | after =>
        match after.takeWhile isDigitC, after.dropWhile isDigitC with
        | _ :: _, ':' :: '"' :: rest2 =>
          match rest2.takeWhile (fun x => !(x = '"')),
              rest2.dropWhile (fun x => !(x = '"')) with
          | t :: ts, '"' :: rest3 => (t :: ts) :: wakeScanAux fuel rest3
          | _, _ => wakeScanAux fuel rest
        | _, _ => wakeScanAux fuel rest
    else wakeScanAux fuel rest

/-- All wake-reason matches in the line. -/
def wakeScan (s : Str) : List Str := wakeScanAux s.length s

/-- Go `strings.Index(s, pat)`: position of the first occurrence of `pat`
in `s`, or `none` (Go: -1) when absent. -/
def strIndexAux (pat : Str) : Str → Option Nat
  | [] => if pat = ([] : Str) then some 0 else none
  | c :: rest =>
    if pat.isPrefixOf (c :: rest) then some 0
    else (strIndexAux pat rest).map (fun n => n + 1)

/-- Go `strings.Index`. -/
def strIndex (s pat : Str) : Option Nat := strIndexAux pat s

/-- Go `strings.Split(text, "\n")`. -/
def splitNl : Str → List Str
  | [] => [[]]
  | c :: rest =>
    match splitNl rest with
    | [] => [[c]]
    | h :: t => if c = '\n' then [] :: h :: t else (c :: h) :: t

/-- The reconstructed timestamp of an entry: either a calendar time parsed
from the fixed year 2026 plus the month-day and time-of-day fields, or the
current wall-clock time substituted by the lenient fallback (`time.Now()`,
modelled by the explicit `now` parameter). -/
inductive GoTime where
  | parsed (year month day hour minute second milli : Nat)
  | wallClock (now : Nat)
deriving DecidableEq, Repr

/-- Two-digit decimal value. -/
def twoDigitVal (a b : Char) : Nat := 10 * digitVal a + digitVal b

/-- Day count of each month of 2026 (not a leap year), used by the calendar
validation inside Go's `time.Parse`. -/
def daysInMonth2026 (m : Nat) : Nat :=
  if m = 1 then 31 else if m = 2 then 28 else if m = 3 then 31
  else if m = 4 then 30 else if m = 5 then 31 else if m = 6 then 30
  else if m = 7 then 31 else if m = 8 then 31 else if m = 9 then 30
  else if m = 10 then 31 else if m = 11 then 30 else if m = 12 then 31
  else 0

/-- Model of `time.Parse("2006-01-02 15:04:05.000", "2026-<md> <tod>")`
followed by the code's fallback to `time.Now()` on error. -/
def mkTimestamp (md tod : Str) (now : Nat) : GoTime :=
  match md, tod with
  | [m1, m2, '-', d1, d2],
    [h1, h2, ':', mi1, mi2, ':', s1, s2, '.', x1, x2, x3] =>
    if 1 ≤ twoDigitVal m1 m2 ∧ twoDigitVal m1 m2 ≤ 12 ∧
       1 ≤ twoDigitVal d1 d2 ∧
       twoDigitVal d1 d2 ≤ daysInMonth2026 (twoDigitVal m1 m2) ∧
       twoDigitVal h1 h2 ≤ 23 ∧ twoDigitVal mi1 mi2 ≤ 59 ∧
       twoDigitVal s1 s2 ≤ 59 then
      GoTime.parsed 2026 (twoDigitVal m1 m2) (twoDigitVal d1 d2)
        (twoDigitVal h1 h2) (twoDigitVal mi1 mi2) (twoDigitVal s1 s2)
        (100 * digitVal x1 + 10 * digitVal x2 + digitVal x3)
    else GoTime.wallClock now
  | _, _ => GoTime.wallClock now

/-- The record type `BatteryHistoryV2Entry` of the Go source. -/
@[ext]
structure BatteryHistoryV2Entry where
  Timestamp : GoTime
  TimestampMs : Int
  BatteryPercent : Int
  Voltage : Int
  Temperature : Int
  ChargeMicroAh : Int
  Status : Str
  Health : Str
  PlugType : Str
  DataConn : Str
  PhoneSignalStrength : Str
  WiFiSignalStrength : Int
  WiFiSupplicantState : Str
  DeviceIdleMode : Str
  States : Option (List (Str × Bool))
  WakeReasons : Option (List (Str × Bool))
  RailCharges : Option (List (Str × Int))
deriving DecidableEq, Repr

/-- One iteration of the switch in `parseKeyValuePairsV2` for a single
(key, value) match. -/
def kvStep (e : BatteryHistoryV2Entry) (kv : Str × Str) :
    BatteryHistoryV2Entry :=
  if kv.1 = "charge".toList then
    match parseGoInt 64 kv.2 with
    | some v => { e with ChargeMicroAh := v }
    | none => e
  else if kv.1 = "volt".toList then
    match parseGoInt 32 kv.2 with
    | some v => { e with Voltage := v }
    | none => e
  else if kv.1 = "temp".toList then
    match parseGoInt 32 kv.2 with
    | some v => { e with Temperature := v }
    | none => e
  else if kv.1 = "status".toList then { e with Status := kv.2 }
  else if kv.1 = "health".toList then { e with Health := kv.2 }
  else if kv.1 = "plug".toList then { e with PlugType := kv.2 }
  else if kv.1 = "data_conn".toList then { e with DataConn := kv.2 }
  else if kv.1 = "phone_signal_strength".toList then
    { e with PhoneSignalStrength := kv.2 }
  else if kv.1 = "wifi_signal_strength".toList then
    match parseGoInt 32 kv.2 with
    | some v => { e with WiFiSignalStrength := v }
    | none => e
  else if kv.1 = "wifi_suppl".toList then { e with WiFiSupplicantState := kv.2 }
  else if kv.1 = "device_idle".toList then { e with DeviceIdleMode := kv.2 }
  else if kv.1 = "modemRailChargemAh".toList ∨ kv.1 = "wifiRailChargemAh".toList then
    match parseGoInt 64 kv.2 with
    | some v => { e with RailCharges := goSet e.RailCharges kv.1 v }
    | none => e
  else e

/-- Go `parseKeyValuePairsV2`: run the switch over every key=value match. -/
def parseKeyValuePairsV2 (e : BatteryHistoryV2Entry) (line : Str) :
    BatteryHistoryV2Entry :=
  (kvScan line).foldl kvStep e

/-- The check on the character immediately before position `idx`
(`prevChar == ' ' || prevChar == '+' || prevChar == '-'`, vacuously true at
the start of the line). -/
def prevOkAt (line : Str) (idx : Nat) : Bool :=
  if 0 < idx then
    match line.get? (idx - 1) with
    | some c => c = ' ' || c = '+' || c = '-'
    | none => false
  else true

/-- The check on the character at position `j` (the first position after
the matched text), vacuously true past the end of the line. -/
def nextOkAt (line : Str) (j : Nat) : Bool :=
  if j < line.length then
    match line.get? j with
    | some c => c = ' ' || c = '+' || c = '-' || c = ','
    | none => false
  else true

/-- One iteration of the loop in `parseStateTransitionsV2` for a single
toggle match: skip matches containing `=`, locate the FIRST occurrence of
the matched text with `strings.Index`, check the characters around that
occurrence, and record the state on success. -/
def toggleStep (line : Str) (e : BatteryHistoryV2Entry)
    (m : Nat × Char × Str) : BatteryHistoryV2Entry :=
  if (m.2.1 :: m.2.2).contains '=' then e
  else
    match strIndex line (m.2.1 :: m.2.2) with
    | none => e
    | some idx =>
      if prevOkAt line idx && nextOkAt line (idx + (m.2.1 :: m.2.2).length) then
        { e with States := goSet e.States m.2.2 (m.2.1 == '+') }
      else e

/-- Go `parseStateTransitionsV2`. -/
def parseStateTransitionsV2 (e : BatteryHistoryV2Entry) (line : Str) :
    BatteryHistoryV2Entry :=
  (toggleScan line).foldl (toggleStep line) e

/-- Go `parseWakeReasonsV2`: add each quoted reason to the WakeReasons set. -/
def parseWakeReasonsV2 (e : BatteryHistoryV2Entry) (line : Str) :
    BatteryHistoryV2Entry :=
  (wakeScan line).foldl
    (fun e r => { e with WakeReasons := goSet e.WakeReasons r true }) e

/-- The entry allocated by `ParseHistoryV2Line` before the extraction
passes run: Go zero values everywhere, the three containers freshly made
(present and empty), and the reconstructed timestamp. -/
def freshEntry (t : GoTime) : BatteryHistoryV2Entry :=
  { Timestamp := t, TimestampMs := 0, BatteryPercent := 0, Voltage := 0,
    Temperature := 0, ChargeMicroAh := 0, Status := [], Health := [],
    PlugType := [], DataConn := [], PhoneSignalStrength := [],
    WiFiSignalStrength := 0, WiFiSupplicantState := [], DeviceIdleMode := [],
    States := some [], WakeReasons := some [], RailCharges := some [] }

/-- Go `ParseHistoryV2Line`.  `none` models the `(nil, error)` return for a
line whose trimmed form does not match the history-line pattern; `now`
models the wall clock read by the timestamp fallback. -/
def ParseHistoryV2Line (line : Str) (now : Nat) :
    Option BatteryHistoryV2Entry :=
  match historyMatchV2 (trimSpace line) with
  | none => none
  | some g =>
    some (parseWakeReasonsV2
      (parseKeyValuePairsV2
        (parseStateTransitionsV2
          (freshEntry (mkTimestamp g.monthDay g.timeOfDay now))
          g.remainder)
        g.remainder)
      g.remainder)

/-- The fields of `csv.Entry` populated by `ConvertToCSVEntry` (the source
field `Type` is a Lean keyword and is rendered here as `EntryType`). -/
structure CsvEntry where
  Desc : Str
  EntryType : Str
  Start : Int
  Value : Str
  Identifier : Str
deriving DecidableEq, Repr

/-- Go `strings.Join(values, ",")`. -/
def joinComma : List Str → Str
  | [] => []
  | [x] => x
  | x :: y :: t => x ++ ',' :: joinComma (y :: t)

/-- Go `ConvertToCSVEntry`: conditionally append the four fragments in
their fixed order and join them with commas. -/
def ConvertToCSVEntry (e : BatteryHistoryV2Entry) : CsvEntry :=
  { Desc := "Battery state change".toList
    EntryType := "Battery State".toList
    Start := e.TimestampMs
    Value := joinComma
      ((((if e.Status ≠ [] then ["status=".toList ++ e.Status] else []) ++
         (if e.Health ≠ [] then ["health=".toList ++ e.Health] else [])) ++
         (if 0 < e.Voltage then ["volt=".toList ++ goIntToStr e.Voltage] else [])) ++
         (if 0 < e.Temperature then ["temp=".toList ++ goIntToStr e.Temperature] else []))
    Identifier := "system".toList }

/-- The first test of the detector loop: the trimmed line begins with the
legacy marker token `9,h,`. -/
def isLegacyLine (l : Str) : Bool := "9,h,".toList.isPrefixOf (trimSpace l)

/-- The second test of the detector loop: the raw line matches the
Format-2 history-line pattern. -/
def isV2Line (l : Str) : Bool := (historyMatchV2 l).isSome

/-- The per-line loop body of `DetectHistoryFormatVersion`: legacy marker
first (on the trimmed line), then the Format-2 pattern (on the raw line). -/
def detectGo : List Str → Nat
  | [] => 1
  | l :: ls =>
    if isLegacyLine l then 1
    else if isV2Line l then 2
    else detectGo ls

/-- Go `DetectHistoryFormatVersion`. -/
def DetectHistoryFormatVersion (text : Str) : Nat := detectGo (splitNl text)

/-- One conditional Go map assignment, driven by a selector. -/
def condSetStep {β α : Type} (sel : β → Option (Str × α))
    (m : Option (List (Str × α))) (t : β) : Option (List (Str × α)) :=
  match sel t with
  | some kv => goSet m kv.1 kv.2
  | none => m

/-- The acceptance test and write of one toggle match, as a selector: the
value written into States for an accepted match, `none` for a rejected
one.  It mirrors `toggleStep` exactly: no `=` in the matched text, and the
boundary characters around the FIRST occurrence (`strings.Index`) of the
matched text must be delimiters. -/
def toggleSel (line : Str) (m : Nat × Char × Str) : Option (Str × Bool) :=
  if (m.2.1 :: m.2.2).contains '=' then none
  else
    match strIndex line (m.2.1 :: m.2.2) with
    | none => none
    | some idx =>
      if prevOkAt line idx && nextOkAt line (idx + (m.2.1 :: m.2.2).length) then
        some (m.2.2, m.2.1 == '+')
      else none

/-- The selector of the wake-reason pass: every match writes `true` under
the stripped reason text. -/
def wakeSel (r : Str) : Option (Str × Bool) := some (r, true)

/-- Per-field selector of the key/value switch: the value the corresponding
switch arm assigns, or `none` when the match leaves the field alone; one
such selector follows for each recognized scalar identifier. -/
def selCharge (t : Str × Str) : Option Int :=
  if t.1 = "charge".toList then parseGoInt 64 t.2 else none

def selVolt (t : Str × Str) : Option Int :=
  if t.1 = "volt".toList then parseGoInt 32 t.2 else none

def selTemp (t : Str × Str) : Option Int :=
  if t.1 = "temp".toList then parseGoInt 32 t.2 else none

def selWiFiSig (t : Str × Str) : Option Int :=
  if t.1 = "wifi_signal_strength".toList then parseGoInt 32 t.2 else none

def selStatus (t : Str × Str) : Option Str :=
  if t.1 = "status".toList then some t.2 else none

def selHealth (t : Str × Str) : Option Str :=
  if t.1 = "health".toList then some t.2 else none

def selPlug (t : Str × Str) : Option Str :=
  if t.1 = "plug".toList then some t.2 else none

def selDataConn (t : Str × Str) : Option Str :=
  if t.1 = "data_conn".toList then some t.2 else none

def selPhoneSig (t : Str × Str) : Option Str :=
  if t.1 = "phone_signal_strength".toList then some t.2 else none

def selWiFiSuppl (t : Str × Str) : Option Str :=
  if t.1 = "wifi_suppl".toList then some t.2 else none

def selDeviceIdle (t : Str × Str) : Option Str :=
  if t.1 = "device_idle".toList then some t.2 else none

/-- Selector of the two special-cased rail-charge identifiers. -/
def selRail (t : Str × Str) : Option (Str × Int) :=
  if t.1 = "modemRailChargemAh".toList ∨ t.1 = "wifiRailChargemAh".toList then
    (parseGoInt 64 t.2).map (fun v => (t.1, v))
  else none

/-- Position of the first line satisfying a predicate. -/
def firstIdxWhere (p : Str → Bool) : List Str → Option Nat
  | [] => none
  | l :: t => if p l then some 0 else (firstIdxWhere p t).map (fun n => n + 1)

/-- The detector as the claim words it: compare the position of the first
legacy-marker line (trimmed form begins with `9,h,`) with the position of
the first line matching the Format-2 grammar; the earlier one decides, and
the default is version 1 (also for empty input). -/
def detectSpec (text : Str) : Nat :=
  match firstIdxWhere isLegacyLine (splitNl text),
      firstIdxWhere isV2Line (splitNl text) with
  | some i, some j => if i ≤ j then 1 else 2
  | some _, none => 1
  | none, some _ => 2
  | none, none => 1

/-- The closed identifier vocabulary of the key/value switch. -/
def recognizedKeys : List Str :=
  ["charge".toList, "volt".toList, "temp".toList, "status".toList,
   "health".toList, "plug".toList, "data_conn".toList,
   "phone_signal_strength".toList, "wifi_signal_strength".toList,
   "wifi_suppl".toList, "device_idle".toList,
   "modemRailChargemAh".toList, "wifiRailChargemAh".toList]

/-- A token whose identifier is recognized and numeric but whose value
fails to coerce to the declared numeric kind. -/
def badNumericToken (t : Str × Str) : Prop :=
  ((t.1 = "volt".toList ∨ t.1 = "temp".toList ∨
      t.1 = "wifi_signal_strength".toList) ∧ parseGoInt 32 t.2 = none) ∨
  ((t.1 = "charge".toList ∨ t.1 = "modemRailChargemAh".toList ∨
      t.1 = "wifiRailChargemAh".toList) ∧ parseGoInt 64 t.2 = none)

/-- The boundary condition of claim C1, evaluated at the match's own
position: no `=` inside the matched text, and delimiter characters (or a
string edge) immediately before and after the match. -/
def toggleCondAtMatch (line : Str) (m : Nat × Char × Str) : Bool :=
  !((m.2.1 :: m.2.2).contains '=') && prevOkAt line m.1 &&
    nextOkAt line (m.1 + (m.2.1 :: m.2.2).length)

/-- The States container produced by the toggle pass on a freshly made
entry, for a given remainder. -/
def remainderStates (r : Str) : Option (List (Str × Bool)) :=
  (parseStateTransitionsV2 (freshEntry (GoTime.wallClock 0)) r).States

/-- Claim C1 as stated, as a decidable check on one remainder: a
toggle-shaped match is recorded in States exactly when conditions
(i)-(iii) hold at the match's own position. -/
def claimC1Check (r : Str) : Bool :=
  (toggleScan r).all (fun m =>
    (goFind (remainderStates r) m.2.2).isSome == toggleCondAtMatch r m)

/-- The accepted toggle writes of a remainder, in match order. -/
def acceptedToggles (r : Str) : List (Str × Bool) :=
  (toggleScan r).filterMap (toggleSel r)

/-- The WakeReasons container produced by the wake-reason pass on a
freshly made entry, for a given remainder. -/
def remainderWakeReasons (r : Str) : Option (List (Str × Bool)) :=
  (parseWakeReasonsV2 (freshEntry (GoTime.wallClock 0)) r).WakeReasons

/-- The projection record exactly as claim C4 states it: a field
contributes a fragment when non-empty (strings) or non-ZERO (numbers), in
the fixed order status, health, voltage, temperature. -/
def claimC4Record (e : BatteryHistoryV2Entry) : CsvEntry :=
  { Desc := "Battery state change".toList
    EntryType := "Battery State".toList
    Start := e.TimestampMs
    Value := joinComma
      ((((if e.Status ≠ [] then ["status=".toList ++ e.Status] else []) ++
         (if e.Health ≠ [] then ["health=".toList ++ e.Health] else [])) ++
         (if e.Voltage ≠ 0 then ["volt=".toList ++ goIntToStr e.Voltage] else [])) ++
         (if e.Temperature ≠ 0 then ["temp=".toList ++ goIntToStr e.Temperature] else []))
    Identifier := "system".toList }

/-- The amended projection record: voltage and temperature contribute only
when strictly positive (the code tests `> 0`, not non-zero). -/
def amendedC4Record (e : BatteryHistoryV2Entry) : CsvEntry :=
  { Desc := "Battery state change".toList
    EntryType := "Battery State".toList
    Start := e.TimestampMs
    Value := joinComma (([
        (decide (e.Status ≠ []), "status=".toList ++ e.Status),
        (decide (e.Health ≠ []), "health=".toList ++ e.Health),
        (decide (0 < e.Voltage), "volt=".toList ++ goIntToStr e.Voltage),
        (decide (0 < e.Temperature), "temp=".toList ++ goIntToStr e.Temperature)] :
        List (Bool × Str)).filterMap (fun p => if p.1 then some p.2 else none))
    Identifier := "system".toList }

/-- The order-independence and re-run stability property of claim C8 at
one entry and remainder: each of the five other relative orders of the
three passes produces the entry of the code's order (state, then
key/value, then wake), and running all three passes a second time on the
same remainder changes nothing. -/
def orderIndependentAt (e : BatteryHistoryV2Entry) (r : Str) : Prop :=
  (parseWakeReasonsV2 (parseStateTransitionsV2 (parseKeyValuePairsV2 e r) r) r
    = parseWakeReasonsV2 (parseKeyValuePairsV2 (parseStateTransitionsV2 e r) r) r) ∧
  (parseKeyValuePairsV2 (parseWakeReasonsV2 (parseStateTransitionsV2 e r) r) r
    = parseWakeReasonsV2 (parseKeyValuePairsV2 (parseStateTransitionsV2 e r) r) r) ∧
  (parseKeyValuePairsV2 (parseStateTransitionsV2 (parseWakeReasonsV2 e r) r) r
    = parseWakeReasonsV2 (parseKeyValuePairsV2 (parseStateTransitionsV2 e r) r) r) ∧
  (parseStateTransitionsV2 (parseWakeReasonsV2 (parseKeyValuePairsV2 e r) r) r
    = parseWakeReasonsV2 (parseKeyValuePairsV2 (parseStateTransitionsV2 e r) r) r) ∧
  (parseStateTransitionsV2 (parseKeyValuePairsV2 (parseWakeReasonsV2 e r) r) r
    = parseWakeReasonsV2 (parseKeyValuePairsV2 (parseStateTransitionsV2 e r) r) r) ∧
  (parseWakeReasonsV2 (parseKeyValuePairsV2 (parseStateTransitionsV2
      (parseWakeReasonsV2 (parseKeyValuePairsV2 (parseStateTransitionsV2 e r) r) r)
      r) r) r
    = parseWakeReasonsV2 (parseKeyValuePairsV2 (parseStateTransitionsV2 e r) r) r)

/-- The determinism property that actually holds of the parser, at one
line and two wall-clock readings: failure agrees, successful entries agree
on every field except possibly the reconstructed Timestamp, and they agree
fully whenever the timestamp composition produced a parsed calendar time
(the only disagreement comes from the current-wall-clock fallback). -/
def parseNowAgnosticAt (line : Str) (n1 n2 : Nat) : Prop :=
  ((ParseHistoryV2Line line n1).isSome = (ParseHistoryV2Line line n2).isSome) ∧
  ∀ e1 e2, ParseHistoryV2Line line n1 = some e1 →
    ParseHistoryV2Line line n2 = some e2 →
    (e1 = { e2 with Timestamp := e1.Timestamp } ∧
     ∀ y mo dy hr mi se ms,
       e1.Timestamp = GoTime.parsed y mo dy hr mi se ms → e1 = e2)

/-- The entry parsed from `01-01 00:00:00.000 0 a b`: all scalar fields at
their Go zero values, containers freshly made, timestamp parsed. -/
def entry0101 : BatteryHistoryV2Entry :=
  freshEntry (GoTime.parsed 2026 1 1 0 0 0 0)

@[simp]
theorem mapWrites_nil {α : Type} (m : List (Str × α)) : mapWrites m [] = m := rfl

@[simp]
theorem mapWrites_cons {α : Type} (m : List (Str × α)) (kv : Str × α)
    (t : List (Str × α)) :
    mapWrites m (kv :: t) = mapWrites (mapSet m kv.1 kv.2) t := rfl

/-- Looking a key up after a Go map assignment. -/
theorem mapFind_set {α : Type} (m : List (Str × α)) (k k' : Str) (v : α) :
    mapFind (mapSet m k v) k' = if k = k' then some v else mapFind m k' := by
  induction m with
  | nil => simp [mapSet, mapFind]
  | cons hd t ih =>
    obtain ⟨k0, v0⟩ := hd
    by_cases h0 : k0 = k
    · subst h0
      simp only [mapSet, if_pos rfl, mapFind]
      split_ifs <;> rfl
    · simp only [mapSet, if_neg h0, mapFind]
      by_cases h1 : k0 = k'
      · subst h1
        have hne : ¬ k = k0 := fun h => h0 h.symm
        simp [hne]
      · simp [h1, ih]

/-- Reassigning the same key twice keeps only the second value. -/
theorem mapSet_set_same {α : Type} (m : List (Str × α)) (k : Str) (v v' : α) :
    mapSet (mapSet m k v) k v' = mapSet m k v' := by
  induction m with
  | nil => simp [mapSet]
  | cons hd t ih =>
    obtain ⟨k0, v0⟩ := hd
    by_cases h0 : k0 = k
    · simp [mapSet, h0]
    · simp [mapSet, h0, ih]

/-- Assigning a key the value it already has does not change the map. -/
theorem mapSet_same {α : Type} (m : List (Str × α)) (k : Str) (v : α)
    (h : mapFind m k = some v) : mapSet m k v = m := by
  induction m with
  | nil => simp [mapFind] at h
  | cons hd t ih =>
    obtain ⟨k0, v0⟩ := hd
    by_cases h0 : k0 = k
    · subst h0
      have hv : v0 = v := by simpa [mapFind] using h
      subst hv
      simp [mapSet]
    · simp only [mapFind, if_neg h0] at h
      simp [mapSet, h0, ih h]

/-- Assignments to distinct keys commute when the first key is already
present (replacement in place cannot disturb an append at the end). -/
theorem mapSet_comm_mem {α : Type} (m : List (Str × α)) (k k' : Str)
    (v v' : α) (hne : k ≠ k') (hmem : (mapFind m k).isSome) :
    mapSet (mapSet m k v) k' v' = mapSet (mapSet m k' v') k v := by
  induction m with
  | nil => simp [mapFind] at hmem
  | cons hd t ih =>
    obtain ⟨k0, v0⟩ := hd
    by_cases h0 : k0 = k
    · have h0' : ¬ k0 = k' := fun h => hne (h0.symm.trans h)
      simp [mapSet, h0, h0', hne]
    · simp only [mapFind, if_neg h0] at hmem
      by_cases h1 : k0 = k'
      · have hne1 : ¬ k' = k := fun h => hne h.symm
        simp [mapSet, h0, h1, hne1]
      · simp [mapSet, h0, h1, ih hmem]

/-- A sequence of assignments never removes a key. -/
theorem mapWrites_isSome {α : Type} (l : List (Str × α)) (m : List (Str × α))
    (k : Str) (h : (mapFind m k).isSome) :
    (mapFind (mapWrites m l) k).isSome := by
  induction l generalizing m with
  | nil => exact h
  | cons kv t ih =>
    rw [mapWrites_cons]
    apply ih
    rw [mapFind_set]
    split_ifs <;> simp [h]

/-- A sequence of assignments does not affect keys it never writes. -/
theorem mapFind_writes_not_mem {α : Type} (l : List (Str × α))
    (m : List (Str × α)) (k : Str) (h : k ∉ l.map Prod.fst) :
    mapFind (mapWrites m l) k = mapFind m k := by
  induction l generalizing m with
  | nil => rfl
  | cons kv t ih =>
    simp only [List.map_cons, List.mem_cons] at h
    push_neg at h
    rw [mapWrites_cons, ih _ h.2, mapFind_set]
    exact if_neg (fun he => h.1 he.symm)

/-- Writing a key that is both already present and written again later in
the sequence is absorbed by the rest of the sequence. -/
theorem mapWrites_set_absorb {α : Type} (l : List (Str × α))
    (m : List (Str × α)) (k : Str) (v : α) (hmem : (mapFind m k).isSome)
    (hlater : k ∈ l.map Prod.fst) :
    mapWrites (mapSet m k v) l = mapWrites m l := by
  induction l generalizing m v with
  | nil => simp at hlater
  | cons kv t ih =>
    obtain ⟨k', v'⟩ := kv
    simp only [List.map_cons, List.mem_cons] at hlater
    by_cases h0 : k' = k
    · subst h0
      rw [mapWrites_cons, mapWrites_cons]
      rw [mapSet_set_same]
    · have hlater' : k ∈ t.map Prod.fst := by
        rcases hlater with h | h
        · exact absurd h.symm h0
        · exact h
      have hmem' : (mapFind (mapSet m k' v') k).isSome := by
        rw [mapFind_set, if_neg h0]
        exact hmem
      rw [mapWrites_cons, mapWrites_cons]
      rw [show mapSet (mapSet m k v) k' v' = mapSet (mapSet m k' v') k v from
        mapSet_comm_mem m k k' v v' (fun he => h0 he.symm) hmem]
      exact ih _ _ hmem' hlater'

/-- Replaying a sequence of assignments on its own result is the identity:
every key it writes is already present with its final value, so each
assignment either rewrites in place or is overwritten again, and the map is
left structurally unchanged. -/
theorem mapWrites_self {α : Type} (l : List (Str × α)) (m m0 : List (Str × α))
    (h : m = mapWrites m0 l) : mapWrites m l = m := by
  induction l generalizing m m0 with
  | nil => simp
  | cons kv t ih =>
    obtain ⟨k, v⟩ := kv
    rw [mapWrites_cons] at h
    rw [mapWrites_cons]
    by_cases hk : k ∈ t.map Prod.fst
    · have hmem : (mapFind m k).isSome := by
        subst h
        apply mapWrites_isSome
        rw [mapFind_set, if_pos rfl]
        simp
      rw [mapWrites_set_absorb t m k v hmem hk]
      exact ih m (mapSet m0 k v) h
    · have hfind : mapFind m k = some v := by
        subst h
        rw [mapFind_writes_not_mem t (mapSet m0 k v) k hk, mapFind_set,
          if_pos rfl]
      rw [mapSet_same m k v hfind]
      exact ih m (mapSet m0 k v) h

/-- Replaying a whole write sequence twice equals replaying it once. -/
theorem mapWrites_idem {α : Type} (m : List (Str × α)) (l : List (Str × α)) :
    mapWrites (mapWrites m l) l = mapWrites m l :=
  mapWrites_self l (mapWrites m l) m rfl

/-- The default of `getLast?` on a cons cell is absorbed by the head. -/
theorem getLast?_cons_getD {γ : Type} (L : List γ) (v x : γ) :
    ((v :: L).getLast?).getD x = (L.getLast?).getD v := by
  induction L generalizing v x with
  | nil => rfl
  | cons b t ih => rw [List.getLast?_cons_cons, ih b x, ih b v]

/-- Collapsing two defaults of the same optional value. -/
theorem getD_getD {γ : Type} (o : Option γ) (x : γ) :
    o.getD (o.getD x) = o.getD x := by
  cases o <;> rfl

/-- A fold that ignores the list is the identity. -/
theorem foldl_const {β γ : Type} : ∀ (l : List β) (x : γ),
    l.foldl (fun x _ => x) x = x := by
  intro l
  induction l with
  | nil => intro x; rfl
  | cons t ts ih => intro x; rw [List.foldl_cons]; exact ih x

/-- A fold of conditional Go map assignments is a write sequence over the
selected pairs. -/
theorem foldl_condSet_char {β α : Type} (sel : β → Option (Str × α)) :
    ∀ (l : List β) (s : Option (List (Str × α))),
      l.foldl (condSetStep sel) s
      = s.map (fun ml => mapWrites ml (l.filterMap sel)) := by
  intro l
  induction l with
  | nil =>
    intro s
    cases s <;> simp
  | cons t ts ih =>
    intro s
    rw [List.foldl_cons, List.filterMap_cons]
    cases hs : sel t with
    | none => rw [condSetStep, hs, ih]
    | some kv =>
      rw [condSetStep, hs, ih]
      cases s <;> simp [goSet]

/-- A fold of conditional plain assignments keeps the last selected value
(or the start value when nothing is selected). -/
theorem foldl_selGetD_char {β γ : Type} (sel : β → Option γ) :
    ∀ (l : List β) (x : γ),
      l.foldl (fun x t => (sel t).getD x) x
        = ((l.filterMap sel).getLast?).getD x := by
  intro l
  induction l with
  | nil => intro x; rfl
  | cons t ts ih =>
    intro x
    rw [List.foldl_cons, List.filterMap_cons]
    cases hs : sel t with
    | none => rw [ih, Option.getD_none]
    | some v => rw [ih, Option.getD_some, getLast?_cons_getD]

/-- Looking up a key after a write sequence yields the value of the last
write of that key, and otherwise the original binding. -/
theorem mapFind_writes {α : Type} (l : List (Str × α)) (m : List (Str × α))
    (k : Str) :
    mapFind (mapWrites m l) k =
      match l.reverse.find? (fun kv => kv.1 == k) with
      | some kv => some kv.2
      | none => mapFind m k := by
  induction l generalizing m with
  | nil => rfl
  | cons kv t ih =>
    rw [mapWrites_cons, ih, List.reverse_cons]
    cases hf : t.reverse.find? (fun kv => kv.1 == k) with
    | some kv' =>
      rw [List.find?_append, hf]
      rfl
    | none =>
      rw [List.find?_append, hf]
      by_cases hk : kv.1 = k
      · simp [List.find?, hk, mapFind_set]
      · have hk' : (kv.1 == k) = false := by simpa using hk
        simp [List.find?, hk', mapFind_set, hk]

/-- One toggle iteration only rewrites the States container, by its
selector. -/
theorem toggleStep_eq (line : Str) (e : BatteryHistoryV2Entry)
    (m : Nat × Char × Str) :
    toggleStep line e m =
      { e with States := condSetStep (toggleSel line) e.States m } := by
  simp only [toggleStep, toggleSel, condSetStep]
  by_cases h1 : (m.2.1 :: m.2.2).contains '=' = true
  · rw [if_pos h1, if_pos h1]
  · rw [if_neg h1, if_neg h1]
    cases hidx : strIndex line (m.2.1 :: m.2.2) with
    | none => rfl
    | some idx =>
      dsimp only
      by_cases h2 : (prevOkAt line idx &&
          nextOkAt line (idx + (m.2.1 :: m.2.2).length)) = true
      · rw [if_pos h2, if_pos h2]
      · rw [if_neg h2, if_neg h2]

/-- The state-transition pass only rewrites States: it performs the write
sequence of its accepted matches. -/
theorem statePass_char (e : BatteryHistoryV2Entry) (line : Str) :
    parseStateTransitionsV2 e line =
      { e with States := (e.States.map (fun ml =>
          mapWrites ml ((toggleScan line).filterMap (toggleSel line)))) } := by
  have hfold : ∀ (ms : List (Nat × Char × Str)) (e : BatteryHistoryV2Entry),
      ms.foldl (toggleStep line) e =
        { e with States := ms.foldl (condSetStep (toggleSel line)) e.States } := by
    intro ms
    induction ms with
    | nil => intro e; rfl
    | cons mt ms ih =>
      intro e
      rw [List.foldl_cons, List.foldl_cons, toggleStep_eq, ih]
  unfold parseStateTransitionsV2
  rw [hfold, foldl_condSet_char]

/-- The wake-reason pass only rewrites WakeReasons: it performs the write
sequence of its matches. -/
theorem wakePass_char (e : BatteryHistoryV2Entry) (line : Str) :
    parseWakeReasonsV2 e line =
      { e with WakeReasons := (e.WakeReasons.map (fun ml =>
          mapWrites ml ((wakeScan line).filterMap wakeSel))) } := by
  have hfold : ∀ (rs : List Str) (e : BatteryHistoryV2Entry),
      rs.foldl (fun e r => { e with WakeReasons := goSet e.WakeReasons r true }) e =
        { e with WakeReasons := rs.foldl (condSetStep wakeSel) e.WakeReasons } := by
    intro rs
    induction rs with
    | nil => intro e; rfl
    | cons r rs ih =>
      intro e
      rw [List.foldl_cons, List.foldl_cons, ih]
      rfl
  unfold parseWakeReasonsV2
  rw [hfold, foldl_condSet_char]

/-- Generic projection of the key/value fold through a per-field step
description. -/
theorem kvFold_proj {γ : Type} (proj : BatteryHistoryV2Entry → γ)
    (g : γ → Str × Str → γ)
    (h : ∀ e t, proj (kvStep e t) = g (proj e) t) :
    ∀ (l : List (Str × Str)) (e : BatteryHistoryV2Entry),
      proj (l.foldl kvStep e) = l.foldl g (proj e) := by
  intro l
  induction l with
  | nil => intro e; rfl
  | cons t ts ih =>
    intro e
    rw [List.foldl_cons, List.foldl_cons, ih, h]

/-- Effect of one key/value match on the ChargeMicroAh field. -/
theorem kvStep_ChargeMicroAh (e : BatteryHistoryV2Entry) (t : Str × Str) :
    (kvStep e t).ChargeMicroAh = (selCharge t).getD e.ChargeMicroAh := by
  unfold kvStep selCharge
  by_cases h1 : t.1 = "charge".toList
  · rw [if_pos h1, if_pos h1]
    try cases parseGoInt 64 t.2 <;> rfl
  rw [if_neg h1]
  by_cases h2 : t.1 = "volt".toList
  · rw [if_pos h2, if_neg (show ¬ t.1 = "charge".toList by rw [h2]; decide)]
    try cases parseGoInt 32 t.2 <;> rfl
  rw [if_neg h2]
  by_cases h3 : t.1 = "temp".toList
  · rw [if_pos h3, if_neg (show ¬ t.1 = "charge".toList by rw [h3]; decide)]
    try cases parseGoInt 32 t.2 <;> rfl
  rw [if_neg h3]
  by_cases h4 : t.1 = "status".toList
  · rw [if_pos h4, if_neg (show ¬ t.1 = "charge".toList by rw [h4]; decide)]
    try rfl
  rw [if_neg h4]
  by_cases h5 : t.1 = "health".toList
  · rw [if_pos h5, if_neg (show ¬ t.1 = "charge".toList by rw [h5]; decide)]
    try rfl
  rw [if_neg h5]
  by_cases h6 : t.1 = "plug".toList
  · rw [if_pos h6, if_neg (show ¬ t.1 = "charge".toList by rw [h6]; decide)]
    try rfl
  rw [if_neg h6]
  by_cases h7 : t.1 = "data_conn".toList
  · rw [if_pos h7, if_neg (show ¬ t.1 = "charge".toList by rw [h7]; decide)]
    try rfl
  rw [if_neg h7]
  by_cases h8 : t.1 = "phone_signal_strength".toList
  · rw [if_pos h8, if_neg (show ¬ t.1 = "charge".toList by rw [h8]; decide)]
    try rfl
  rw [if_neg h8]
  by_cases h9 : t.1 = "wifi_signal_strength".toList
  · rw [if_pos h9, if_neg (show ¬ t.1 = "charge".toList by rw [h9]; decide)]
    try cases parseGoInt 32 t.2 <;> rfl
  rw [if_neg h9]
  by_cases h10 : t.1 = "wifi_suppl".toList
  · rw [if_pos h10, if_neg (show ¬ t.1 = "charge".toList by rw [h10]; decide)]
    try rfl
  rw [if_neg h10]
  by_cases h11 : t.1 = "device_idle".toList
  · rw [if_pos h11, if_neg (show ¬ t.1 = "charge".toList by rw [h11]; decide)]
    try rfl
  rw [if_neg h11]
  by_cases h12 : t.1 = "modemRailChargemAh".toList ∨ t.1 = "wifiRailChargemAh".toList
  · rw [if_pos h12, if_neg (show ¬ t.1 = "charge".toList by rcases h12 with h | h <;> rw [h] <;> decide)]
    try cases parseGoInt 64 t.2 <;> rfl
  rw [if_neg h12]
  try rw [if_neg h1]
  try rfl

/-- Effect of one key/value match on the Voltage field. -/
theorem kvStep_Voltage (e : BatteryHistoryV2Entry) (t : Str × Str) :
    (kvStep e t).Voltage = (selVolt t).getD e.Voltage := by
  unfold kvStep selVolt
  by_cases h1 : t.1 = "charge".toList
  · rw [if_pos h1, if_neg (show ¬ t.1 = "volt".toList by rw [h1]; decide)]
    try cases parseGoInt 64 t.2 <;> rfl
  rw [if_neg h1]
  by_cases h2 : t.1 = "volt".toList
  · rw [if_pos h2, if_pos h2]
    try cases parseGoInt 32 t.2 <;> rfl
  rw [if_neg h2]
  by_cases h3 : t.1 = "temp".toList
  · rw [if_pos h3, if_neg (show ¬ t.1 = "volt".toList by rw [h3]; decide)]
    try cases parseGoInt 32 t.2 <;> rfl
  rw [if_neg h3]
  by_cases h4 : t.1 = "status".toList
  · rw [if_pos h4, if_neg (show ¬ t.1 = "volt".toList by rw [h4]; decide)]
    try rfl
  rw [if_neg h4]
  by_cases h5 : t.1 = "health".toList
  · rw [if_pos h5, if_neg (show ¬ t.1 = "volt".toList by rw [h5]; decide)]
    try rfl
  rw [if_neg h5]
  by_cases h6 : t.1 = "plug".toList
  · rw [if_pos h6, if_neg (show ¬ t.1 = "volt".toList by rw [h6]; decide)]
    try rfl
  rw [if_neg h6]
  by_cases h7 : t.1 = "data_conn".toList
  · rw [if_pos h7, if_neg (show ¬ t.1 = "volt".toList by rw [h7]; decide)]
    try rfl
  rw [if_neg h7]
  by_cases h8 : t.1 = "phone_signal_strength".toList
  · rw [if_pos h8, if_neg (show ¬ t.1 = "volt".toList by rw [h8]; decide)]
    try rfl
  rw [if_neg h8]
  by_cases h9 : t.1 = "wifi_signal_strength".toList
  · rw [if_pos h9, if_neg (show ¬ t.1 = "volt".toList by rw [h9]; decide)]
    try cases parseGoInt 32 t.2 <;> rfl
  rw [if_neg h9]
  by_cases h10 : t.1 = "wifi_suppl".toList
  · rw [if_pos h10, if_neg (show ¬ t.1 = "volt".toList by rw [h10]; decide)]
    try rfl
  rw [if_neg h10]
  by_cases h11 : t.1 = "device_idle".toList
  · rw [if_pos h11, if_neg (show ¬ t.1 = "volt".toList by rw [h11]; decide)]
    try rfl
  rw [if_neg h11]
  by_cases h12 : t.1 = "modemRailChargemAh".toList ∨ t.1 = "wifiRailChargemAh".toList
  · rw [if_pos h12, if_neg (show ¬ t.1 = "volt".toList by rcases h12 with h | h <;> rw [h] <;> decide)]
    try cases parseGoInt 64 t.2 <;> rfl
  rw [if_neg h12]
  try rw [if_neg h2]
  try rfl

/-- Effect of one key/value match on the Temperature field. -/
theorem kvStep_Temperature (e : BatteryHistoryV2Entry) (t : Str × Str) :
    (kvStep e t).Temperature = (selTemp t).getD e.Temperature := by
  unfold kvStep selTemp
  by_cases h1 : t.1 = "charge".toList
  · rw [if_pos h1, if_neg (show ¬ t.1 = "temp".toList by rw [h1]; decide)]
    try cases parseGoInt 64 t.2 <;> rfl
  rw [if_neg h1]
  by_cases h2 : t.1 = "volt".toList
  · rw [if_pos h2, if_neg (show ¬ t.1 = "temp".toList by rw [h2]; decide)]
    try cases parseGoInt 32 t.2 <;> rfl
  rw [if_neg h2]
  by_cases h3 : t.1 = "temp".toList
  · rw [if_pos h3, if_pos h3]
    try cases parseGoInt 32 t.2 <;> rfl
  rw [if_neg h3]
  by_cases h4 : t.1 = "status".toList
  · rw [if_pos h4, if_neg (show ¬ t.1 = "temp".toList by rw [h4]; decide)]
    try rfl
  rw [if_neg h4]
  by_cases h5 : t.1 = "health".toList
  · rw [if_pos h5, if_neg (show ¬ t.1 = "temp".toList by rw [h5]; decide)]
    try rfl
  rw [if_neg h5]
  by_cases h6 : t.1 = "plug".toList
  · rw [if_pos h6, if_neg (show ¬ t.1 = "temp".toList by rw [h6]; decide)]
    try rfl
  rw [if_neg h6]
  by_cases h7 : t.1 = "data_conn".toList
  · rw [if_pos h7, if_neg (show ¬ t.1 = "temp".toList by rw [h7]; decide)]
    try rfl
  rw [if_neg h7]
  by_cases h8 : t.1 = "phone_signal_strength".toList
  · rw [if_pos h8, if_neg (show ¬ t.1 = "temp".toList by rw [h8]; decide)]
    try rfl
  rw [if_neg h8]
  by_cases h9 : t.1 = "wifi_signal_strength".toList
  · rw [if_pos h9, if_neg (show ¬ t.1 = "temp".toList by rw [h9]; decide)]
    try cases parseGoInt 32 t.2 <;> rfl
  rw [if_neg h9]
  by_cases h10 : t.1 = "wifi_suppl".toList
  · rw [if_pos h10, if_neg (show ¬ t.1 = "temp".toList by rw [h10]; decide)]
    try rfl
  rw [if_neg h10]
  by_cases h11 : t.1 = "device_idle".toList
  · rw [if_pos h11, if_neg (show ¬ t.1 = "temp".toList by rw [h11]; decide)]
    try rfl
  rw [if_neg h11]
  by_cases h12 : t.1 = "modemRailChargemAh".toList ∨ t.1 = "wifiRailChargemAh".toList
  · rw [if_pos h12, if_neg (show ¬ t.1 = "temp".toList by rcases h12 with h | h <;> rw [h] <;> decide)]
    try cases parseGoInt 64 t.2 <;> rfl
  rw [if_neg h12]
  try rw [if_neg h3]
  try rfl

/-- Effect of one key/value match on the WiFiSignalStrength field. -/
theorem kvStep_WiFiSignalStrength (e : BatteryHistoryV2Entry) (t : Str × Str) :
    (kvStep e t).WiFiSignalStrength = (selWiFiSig t).getD e.WiFiSignalStrength := by
  unfold kvStep selWiFiSig
  by_cases h1 : t.1 = "charge".toList
  · rw [if_pos h1, if_neg (show ¬ t.1 = "wifi_signal_strength".toList by rw [h1]; decide)]
    try cases parseGoInt 64 t.2 <;> rfl
  rw [if_neg h1]
  by_cases h2 : t.1 = "volt".toList
  · rw [if_pos h2, if_neg (show ¬ t.1 = "wifi_signal_strength".toList by rw [h2]; decide)]
    try cases parseGoInt 32 t.2 <;> rfl
  rw [if_neg h2]
  by_cases h3 : t.1 = "temp".toList
  · rw [if_pos h3, if_neg (show ¬ t.1 = "wifi_signal_strength".toList by rw [h3]; decide)]
    try cases parseGoInt 32 t.2 <;> rfl
  rw [if_neg h3]
  by_cases h4 : t.1 = "status".toList
  · rw [if_pos h4, if_neg (show ¬ t.1 = "wifi_signal_strength".toList by rw [h4]; decide)]
    try rfl
  rw [if_neg h4]
  by_cases h5 : t.1 = "health".toList
  · rw [if_pos h5, if_neg (show ¬ t.1 = "wifi_signal_strength".toList by rw [h5]; decide)]
    try rfl
  rw [if_neg h5]
  by_cases h6 : t.1 = "plug".toList
  · rw [if_pos h6, if_neg (show ¬ t.1 = "wifi_signal_strength".toList by rw [h6]; decide)]
    try rfl
  rw [if_neg h6]
  by_cases h7 : t.1 = "data_conn".toList
  · rw [if_pos h7, if_neg (show ¬ t.1 = "wifi_signal_strength".toList by rw [h7]; decide)]
    try rfl
  rw [if_neg h7]
  by_cases h8 : t.1 = "phone_signal_strength".toList
  · rw [if_pos h8, if_neg (show ¬ t.1 = "wifi_signal_strength".toList by rw [h8]; decide)]
    try rfl
  rw [if_neg h8]
  by_cases h9 : t.1 = "wifi_signal_strength".toList
  · rw [if_pos h9, if_pos h9]
    try cases parseGoInt 32 t.2 <;> rfl
  rw [if_neg h9]
  by_cases h10 : t.1 = "wifi_suppl".toList
  · rw [if_pos h10, if_neg (show ¬ t.1 = "wifi_signal_strength".toList by rw [h10]; decide)]
    try rfl
  rw [if_neg h10]
  by_cases h11 : t.1 = "device_idle".toList
  · rw [if_pos h11, if_neg (show ¬ t.1 = "wifi_signal_strength".toList by rw [h11]; decide)]
    try rfl
  rw [if_neg h11]
  by_cases h12 : t.1 = "modemRailChargemAh".toList ∨ t.1 = "wifiRailChargemAh".toList
  · rw [if_pos h12, if_neg (show ¬ t.1 = "wifi_signal_strength".toList by rcases h12 with h | h <;> rw [h] <;> decide)]
    try cases parseGoInt 64 t.2 <;> rfl
  rw [if_neg h12]
  try rw [if_neg h9]
  try rfl

/-- Effect of one key/value match on the Status field. -/
theorem kvStep_Status (e : BatteryHistoryV2Entry) (t : Str × Str) :
    (kvStep e t).Status = (selStatus t).getD e.Status := by
  unfold kvStep selStatus
  by_cases h1 : t.1 = "charge".toList
  · rw [if_pos h1, if_neg (show ¬ t.1 = "status".toList by rw [h1]; decide)]
    try cases parseGoInt 64 t.2 <;> rfl
  rw [if_neg h1]
  by_cases h2 : t.1 = "volt".toList
  · rw [if_pos h2, if_neg (show ¬ t.1 = "status".toList by rw [h2]; decide)]
    try cases parseGoInt 32 t.2 <;> rfl
  rw [if_neg h2]
  by_cases h3 : t.1 = "temp".toList
  · rw [if_pos h3, if_neg (show ¬ t.1 = "status".toList by rw [h3]; decide)]
    try cases parseGoInt 32 t.2 <;> rfl
  rw [if_neg h3]
  by_cases h4 : t.1 = "status".toList
  · rw [if_pos h4, if_pos h4]
    try rfl
  rw [if_neg h4]
  by_cases h5 : t.1 = "health".toList
  · rw [if_pos h5, if_neg (show ¬ t.1 = "status".toList by rw [h5]; decide)]
    try rfl
  rw [if_neg h5]
  by_cases h6 : t.1 = "plug".toList
  · rw [if_pos h6, if_neg (show ¬ t.1 = "status".toList by rw [h6]; decide)]
    try rfl
  rw [if_neg h6]
  by_cases h7 : t.1 = "data_conn".toList
  · rw [if_pos h7, if_neg (show ¬ t.1 = "status".toList by rw [h7]; decide)]
    try rfl
  rw [if_neg h7]
  by_cases h8 : t.1 = "phone_signal_strength".toList
  · rw [if_pos h8, if_neg (show ¬ t.1 = "status".toList by rw [h8]; decide)]
    try rfl
  rw [if_neg h8]
  by_cases h9 : t.1 = "wifi_signal_strength".toList
  · rw [if_pos h9, if_neg (show ¬ t.1 = "status".toList by rw [h9]; decide)]
    try cases parseGoInt 32 t.2 <;> rfl
  rw [if_neg h9]
  by_cases h10 : t.1 = "wifi_suppl".toList
  · rw [if_pos h10, if_neg (show ¬ t.1 = "status".toList by rw [h10]; decide)]
    try rfl
  rw [if_neg h10]
  by_cases h11 : t.1 = "device_idle".toList
  · rw [if_pos h11, if_neg (show ¬ t.1 = "status".toList by rw [h11]; decide)]
    try rfl
  rw [if_neg h11]
  by_cases h12 : t.1 = "modemRailChargemAh".toList ∨ t.1 = "wifiRailChargemAh".toList
  · rw [if_pos h12, if_neg (show ¬ t.1 = "status".toList by rcases h12 with h | h <;> rw [h] <;> decide)]
    try cases parseGoInt 64 t.2 <;> rfl
  rw [if_neg h12]
  try rw [if_neg h4]
  try rfl

/-- Effect of one key/value match on the Health field. -/
theorem kvStep_Health (e : BatteryHistoryV2Entry) (t : Str × Str) :
    (kvStep e t).Health = (selHealth t).getD e.Health := by
  unfold kvStep selHealth
  by_cases h1 : t.1 = "charge".toList
  · rw [if_pos h1, if_neg (show ¬ t.1 = "health".toList by rw [h1]; decide)]
    try cases parseGoInt 64 t.2 <;> rfl
  rw [if_neg h1]
  by_cases h2 : t.1 = "volt".toList
  · rw [if_pos h2, if_neg (show ¬ t.1 = "health".toList by rw [h2]; decide)]
    try cases parseGoInt 32 t.2 <;> rfl
  rw [if_neg h2]
  by_cases h3 : t.1 = "temp".toList
  · rw [if_pos h3, if_neg (show ¬ t.1 = "health".toList by rw [h3]; decide)]
    try cases parseGoInt 32 t.2 <;> rfl
  rw [if_neg h3]
  by_cases h4 : t.1 = "status".toList
  · rw [if_pos h4, if_neg (show ¬ t.1 = "health".toList by rw [h4]; decide)]
    try rfl
  rw [if_neg h4]
  by_cases h5 : t.1 = "health".toList
  · rw [if_pos h5, if_pos h5]
    try rfl
  rw [if_neg h5]
  by_cases h6 : t.1 = "plug".toList
  · rw [if_pos h6, if_neg (show ¬ t.1 = "health".toList by rw [h6]; decide)]
    try rfl
  rw [if_neg h6]
  by_cases h7 : t.1 = "data_conn".toList
  · rw [if_pos h7, if_neg (show ¬ t.1 = "health".toList by rw [h7]; decide)]
    try rfl
  rw [if_neg h7]
  by_cases h8 : t.1 = "phone_signal_strength".toList
  · rw [if_pos h8, if_neg (show ¬ t.1 = "health".toList by rw [h8]; decide)]
    try rfl
  rw [if_neg h8]
  by_cases h9 : t.1 = "wifi_signal_strength".toList
  · rw [if_pos h9, if_neg (show ¬ t.1 = "health".toList by rw [h9]; decide)]
    try cases parseGoInt 32 t.2 <;> rfl
  rw [if_neg h9]
  by_cases h10 : t.1 = "wifi_suppl".toList
  · rw [if_pos h10, if_neg (show ¬ t.1 = "health".toList by rw [h10]; decide)]
    try rfl
  rw [if_neg h10]
  by_cases h11 : t.1 = "device_idle".toList
  · rw [if_pos h11, if_neg (show ¬ t.1 = "health".toList by rw [h11]; decide)]
    try rfl
  rw [if_neg h11]
  by_cases h12 : t.1 = "modemRailChargemAh".toList ∨ t.1 = "wifiRailChargemAh".toList
  · rw [if_pos h12, if_neg (show ¬ t.1 = "health".toList by rcases h12 with h | h <;> rw [h] <;> decide)]
    try cases parseGoInt 64 t.2 <;> rfl
  rw [if_neg h12]
  try rw [if_neg h5]
  try rfl

/-- Effect of one key/value match on the PlugType field. -/
theorem kvStep_PlugType (e : BatteryHistoryV2Entry) (t : Str × Str) :
    (kvStep e t).PlugType = (selPlug t).getD e.PlugType := by
  unfold kvStep selPlug
  by_cases h1 : t.1 = "charge".toList
  · rw [if_pos h1, if_neg (show ¬ t.1 = "plug".toList by rw [h1]; decide)]
    try cases parseGoInt 64 t.2 <;> rfl
  rw [if_neg h1]
  by_cases h2 : t.1 = "volt".toList
  · rw [if_pos h2, if_neg (show ¬ t.1 = "plug".toList by rw [h2]; decide)]
    try cases parseGoInt 32 t.2 <;> rfl
  rw [if_neg h2]
  by_cases h3 : t.1 = "temp".toList
  · rw [if_pos h3, if_neg (show ¬ t.1 = "plug".toList by rw [h3]; decide)]
    try cases parseGoInt 32 t.2 <;> rfl
  rw [if_neg h3]
  by_cases h4 : t.1 = "status".toList
  · rw [if_pos h4, if_neg (show ¬ t.1 = "plug".toList by rw [h4]; decide)]
    try rfl
  rw [if_neg h4]
  by_cases h5 : t.1 = "health".toList
  · rw [if_pos h5, if_neg (show ¬ t.1 = "plug".toList by rw [h5]; decide)]
    try rfl
  rw [if_neg h5]
  by_cases h6 : t.1 = "plug".toList
  · rw [if_pos h6, if_pos h6]
    try rfl
  rw [if_neg h6]
  by_cases h7 : t.1 = "data_conn".toList
  · rw [if_pos h7, if_neg (show ¬ t.1 = "plug".toList by rw [h7]; decide)]
    try rfl
  rw [if_neg h7]
  by_cases h8 : t.1 = "phone_signal_strength".toList
  · rw [if_pos h8, if_neg (show ¬ t.1 = "plug".toList by rw [h8]; decide)]
    try rfl
  rw [if_neg h8]
  by_cases h9 : t.1 = "wifi_signal_strength".toList
  · rw [if_pos h9, if_neg (show ¬ t.1 = "plug".toList by rw [h9]; decide)]
    try cases parseGoInt 32 t.2 <;> rfl
  rw [if_neg h9]
  by_cases h10 : t.1 = "wifi_suppl".toList
  · rw [if_pos h10, if_neg (show ¬ t.1 = "plug".toList by rw [h10]; decide)]
    try rfl
  rw [if_neg h10]
  by_cases h11 : t.1 = "device_idle".toList
  · rw [if_pos h11, if_neg (show ¬ t.1 = "plug".toList by rw [h11]; decide)]
    try rfl
  rw [if_neg h11]
  by_cases h12 : t.1 = "modemRailChargemAh".toList ∨ t.1 = "wifiRailChargemAh".toList
  · rw [if_pos h12, if_neg (show ¬ t.1 = "plug".toList by rcases h12 with h | h <;> rw [h] <;> decide)]
    try cases parseGoInt 64 t.2 <;> rfl
  rw [if_neg h12]
  try rw [if_neg h6]
  try rfl

/-- Effect of one key/value match on the DataConn field. -/
theorem kvStep_DataConn (e : BatteryHistoryV2Entry) (t : Str × Str) :
    (kvStep e t).DataConn = (selDataConn t).getD e.DataConn := by
  unfold kvStep selDataConn
  by_cases h1 : t.1 = "charge".toList
  · rw [if_pos h1, if_neg (show ¬ t.1 = "data_conn".toList by rw [h1]; decide)]
    try cases parseGoInt 64 t.2 <;> rfl
  rw [if_neg h1]
  by_cases h2 : t.1 = "volt".toList
  · rw [if_pos h2, if_neg (show ¬ t.1 = "data_conn".toList by rw [h2]; decide)]
    try cases parseGoInt 32 t.2 <;> rfl
  rw [if_neg h2]
  by_cases h3 : t.1 = "temp".toList
  · rw [if_pos h3, if_neg (show ¬ t.1 = "data_conn".toList by rw [h3]; decide)]
    try cases parseGoInt 32 t.2 <;> rfl
  rw [if_neg h3]
  by_cases h4 : t.1 = "status".toList
  · rw [if_pos h4, if_neg (show ¬ t.1 = "data_conn".toList by rw [h4]; decide)]
    try rfl
  rw [if_neg h4]
  by_cases h5 : t.1 = "health".toList
  · rw [if_pos h5, if_neg (show ¬ t.1 = "data_conn".toList by rw [h5]; decide)]
    try rfl
  rw [if_neg h5]
  by_cases h6 : t.1 = "plug".toList
  · rw [if_pos h6, if_neg (show ¬ t.1 = "data_conn".toList by rw [h6]; decide)]
    try rfl
  rw [if_neg h6]
  by_cases h7 : t.1 = "data_conn".toList
  · rw [if_pos h7, if_pos h7]
    try rfl
  rw [if_neg h7]
  by_cases h8 : t.1 = "phone_signal_strength".toList
  · rw [if_pos h8, if_neg (show ¬ t.1 = "data_conn".toList by rw [h8]; decide)]
    try rfl
  rw [if_neg h8]
  by_cases h9 : t.1 = "wifi_signal_strength".toList
  · rw [if_pos h9, if_neg (show ¬ t.1 = "data_conn".toList by rw [h9]; decide)]
    try cases parseGoInt 32 t.2 <;> rfl
  rw [if_neg h9]
  by_cases h10 : t.1 = "wifi_suppl".toList
  · rw [if_pos h10, if_neg (show ¬ t.1 = "data_conn".toList by rw [h10]; decide)]
    try rfl
  rw [if_neg h10]
  by_cases h11 : t.1 = "device_idle".toList
  · rw [if_pos h11, if_neg (show ¬ t.1 = "data_conn".toList by rw [h11]; decide)]
    try rfl
  rw [if_neg h11]
  by_cases h12 : t.1 = "modemRailChargemAh".toList ∨ t.1 = "wifiRailChargemAh".toList
  · rw [if_pos h12, if_neg (show ¬ t.1 = "data_conn".toList by rcases h12 with h | h <;> rw [h] <;> decide)]
    try cases parseGoInt 64 t.2 <;> rfl
  rw [if_neg h12]
  try rw [if_neg h7]
  try rfl

/-- Effect of one key/value match on the PhoneSignalStrength field. -/
theorem kvStep_PhoneSignalStrength (e : BatteryHistoryV2Entry) (t : Str × Str) :
    (kvStep e t).PhoneSignalStrength = (selPhoneSig t).getD e.PhoneSignalStrength := by
  unfold kvStep selPhoneSig
  by_cases h1 : t.1 = "charge".toList
  · rw [if_pos h1, if_neg (show ¬ t.1 = "phone_signal_strength".toList by rw [h1]; decide)]
    try cases parseGoInt 64 t.2 <;> rfl
  rw [if_neg h1]
  by_cases h2 : t.1 = "volt".toList
  · rw [if_pos h2, if_neg (show ¬ t.1 = "phone_signal_strength".toList by rw [h2]; decide)]
    try cases parseGoInt 32 t.2 <;> rfl
  rw [if_neg h2]
  by_cases h3 : t.1 = "temp".toList
  · rw [if_pos h3, if_neg (show ¬ t.1 = "phone_signal_strength".toList by rw [h3]; decide)]
    try cases parseGoInt 32 t.2 <;> rfl
  rw [if_neg h3]
  by_cases h4 : t.1 = "status".toList
  · rw [if_pos h4, if_neg (show ¬ t.1 = "phone_signal_strength".toList by rw [h4]; decide)]
    try rfl
  rw [if_neg h4]
  by_cases h5 : t.1 = "health".toList
  · rw [if_pos h5, if_neg (show ¬ t.1 = "phone_signal_strength".toList by rw [h5]; decide)]
    try rfl
  rw [if_neg h5]
  by_cases h6 : t.1 = "plug".toList
  · rw [if_pos h6, if_neg (show ¬ t.1 = "phone_signal_strength".toList by rw [h6]; decide)]
    try rfl
  rw [if_neg h6]
  by_cases h7 : t.1 = "data_conn".toList
  · rw [if_pos h7, if_neg (show ¬ t.1 = "phone_signal_strength".toList by rw [h7]; decide)]
    try rfl
  rw [if_neg h7]
  by_cases h8 : t.1 = "phone_signal_strength".toList
  · rw [if_pos h8, if_pos h8]
    try rfl
  rw [if_neg h8]
  by_cases h9 : t.1 = "wifi_signal_strength".toList
  · rw [if_pos h9, if_neg (show ¬ t.1 = "phone_signal_strength".toList by rw [h9]; decide)]
    try cases parseGoInt 32 t.2 <;> rfl
  rw [if_neg h9]
  by_cases h10 : t.1 = "wifi_suppl".toList
  · rw [if_pos h10, if_neg (show ¬ t.1 = "phone_signal_strength".toList by rw [h10]; decide)]
    try rfl
  rw [if_neg h10]
  by_cases h11 : t.1 = "device_idle".toList
  · rw [if_pos h11, if_neg (show ¬ t.1 = "phone_signal_strength".toList by rw [h11]; decide)]
    try rfl
  rw [if_neg h11]
  by_cases h12 : t.1 = "modemRailChargemAh".toList ∨ t.1 = "wifiRailChargemAh".toList
  · rw [if_pos h12, if_neg (show ¬ t.1 = "phone_signal_strength".toList by rcases h12 with h | h <;> rw [h] <;> decide)]
    try cases parseGoInt 64 t.2 <;> rfl
  rw [if_neg h12]
  try rw [if_neg h8]
  try rfl

/-- Effect of one key/value match on the WiFiSupplicantState field. -/
theorem kvStep_WiFiSupplicantState (e : BatteryHistoryV2Entry) (t : Str × Str) :
    (kvStep e t).WiFiSupplicantState = (selWiFiSuppl t).getD e.WiFiSupplicantState := by
  unfold kvStep selWiFiSuppl
  by_cases h1 : t.1 = "charge".toList
  · rw [if_pos h1, if_neg (show ¬ t.1 = "wifi_suppl".toList by rw [h1]; decide)]
    try cases parseGoInt 64 t.2 <;> rfl
  rw [if_neg h1]
  by_cases h2 : t.1 = "volt".toList
  · rw [if_pos h2, if_neg (show ¬ t.1 = "wifi_suppl".toList by rw [h2]; decide)]
    try cases parseGoInt 32 t.2 <;> rfl
  rw [if_neg h2]
  by_cases h3 : t.1 = "temp".toList
  · rw [if_pos h3, if_neg (show ¬ t.1 = "wifi_suppl".toList by rw [h3]; decide)]
    try cases parseGoInt 32 t.2 <;> rfl
  rw [if_neg h3]
  by_cases h4 : t.1 = "status".toList
  · rw [if_pos h4, if_neg (show ¬ t.1 = "wifi_suppl".toList by rw [h4]; decide)]
    try rfl
  rw [if_neg h4]
  by_cases h5 : t.1 = "health".toList
  · rw [if_pos h5, if_neg (show ¬ t.1 = "wifi_suppl".toList by rw [h5]; decide)]
    try rfl
  rw [if_neg h5]
  by_cases h6 : t.1 = "plug".toList
  · rw [if_pos h6, if_neg (show ¬ t.1 = "wifi_suppl".toList by rw [h6]; decide)]
    try rfl
  rw [if_neg h6]
  by_cases h7 : t.1 = "data_conn".toList
  · rw [if_pos h7, if_neg (show ¬ t.1 = "wifi_suppl".toList by rw [h7]; decide)]
    try rfl
  rw [if_neg h7]
  by_cases h8 : t.1 = "phone_signal_strength".toList
  · rw [if_pos h8, if_neg (show ¬ t.1 = "wifi_suppl".toList by rw [h8]; decide)]
    try rfl
  rw [if_neg h8]
  by_cases h9 : t.1 = "wifi_signal_strength".toList
  · rw [if_pos h9, if_neg (show ¬ t.1 = "wifi_suppl".toList by rw [h9]; decide)]
    try cases parseGoInt 32 t.2 <;> rfl
  rw [if_neg h9]
  by_cases h10 : t.1 = "wifi_suppl".toList
  · rw [if_pos h10, if_pos h10]
    try rfl
  rw [if_neg h10]
  by_cases h11 : t.1 = "device_idle".toList
  · rw [if_pos h11, if_neg (show ¬ t.1 = "wifi_suppl".toList by rw [h11]; decide)]
    try rfl
  rw [if_neg h11]
  by_cases h12 : t.1 = "modemRailChargemAh".toList ∨ t.1 = "wifiRailChargemAh".toList
  · rw [if_pos h12, if_neg (show ¬ t.1 = "wifi_suppl".toList by rcases h12 with h | h <;> rw [h] <;> decide)]
    try cases parseGoInt 64 t.2 <;> rfl
  rw [if_neg h12]
  try rw [if_neg h10]
  try rfl

/-- Effect of one key/value match on the DeviceIdleMode field. -/
theorem kvStep_DeviceIdleMode (e : BatteryHistoryV2Entry) (t : Str × Str) :
    (kvStep e t).DeviceIdleMode = (selDeviceIdle t).getD e.DeviceIdleMode := by
  unfold kvStep selDeviceIdle
  by_cases h1 : t.1 = "charge".toList
  · rw [if_pos h1, if_neg (show ¬ t.1 = "device_idle".toList by rw [h1]; decide)]
    try cases parseGoInt 64 t.2 <;> rfl
  rw [if_neg h1]
  by_cases h2 : t.1 = "volt".toList
  · rw [if_pos h2, if_neg (show ¬ t.1 = "device_idle".toList by rw [h2]; decide)]
    try cases parseGoInt 32 t.2 <;> rfl
  rw [if_neg h2]
  by_cases h3 : t.1 = "temp".toList
  · rw [if_pos h3, if_neg (show ¬ t.1 = "device_idle".toList by rw [h3]; decide)]
    try cases parseGoInt 32 t.2 <;> rfl
  rw [if_neg h3]
  by_cases h4 : t.1 = "status".toList
  · rw [if_pos h4, if_neg (show ¬ t.1 = "device_idle".toList by rw [h4]; decide)]
    try rfl
  rw [if_neg h4]
  by_cases h5 : t.1 = "health".toList
  · rw [if_pos h5, if_neg (show ¬ t.1 = "device_idle".toList by rw [h5]; decide)]
    try rfl
  rw [if_neg h5]
  by_cases h6 : t.1 = "plug".toList
  · rw [if_pos h6, if_neg (show ¬ t.1 = "device_idle".toList by rw [h6]; decide)]
    try rfl
  rw [if_neg h6]
  by_cases h7 : t.1 = "data_conn".toList
  · rw [if_pos h7, if_neg (show ¬ t.1 = "device_idle".toList by rw [h7]; decide)]
    try rfl
  rw [if_neg h7]
  by_cases h8 : t.1 = "phone_signal_strength".toList
  · rw [if_pos h8, if_neg (show ¬ t.1 = "device_idle".toList by rw [h8]; decide)]
    try rfl
  rw [if_neg h8]
  by_cases h9 : t.1 = "wifi_signal_strength".toList
  · rw [if_pos h9, if_neg (show ¬ t.1 = "device_idle".toList by rw [h9]; decide)]
    try cases parseGoInt 32 t.2 <;> rfl
  rw [if_neg h9]
  by_cases h10 : t.1 = "wifi_suppl".toList
  · rw [if_pos h10, if_neg (show ¬ t.1 = "device_idle".toList by rw [h10]; decide)]
    try rfl
  rw [if_neg h10]
  by_cases h11 : t.1 = "device_idle".toList
  · rw [if_pos h11, if_pos h11]
    try rfl
  rw [if_neg h11]
  by_cases h12 : t.1 = "modemRailChargemAh".toList ∨ t.1 = "wifiRailChargemAh".toList
  · rw [if_pos h12, if_neg (show ¬ t.1 = "device_idle".toList by rcases h12 with h | h <;> rw [h] <;> decide)]
    try cases parseGoInt 64 t.2 <;> rfl
  rw [if_neg h12]
  try rw [if_neg h11]
  try rfl

/-- Effect of one key/value match on the RailCharges container. -/
theorem kvStep_RailCharges (e : BatteryHistoryV2Entry) (t : Str × Str) :
    (kvStep e t).RailCharges = condSetStep selRail e.RailCharges t := by
  unfold kvStep selRail condSetStep
  beta_reduce
  by_cases h1 : t.1 = "charge".toList
  · rw [if_pos h1, if_neg (show ¬ (t.1 = "modemRailChargemAh".toList ∨ t.1 = "wifiRailChargemAh".toList) by rw [h1]; decide)]
    try cases parseGoInt 64 t.2 <;> rfl
  rw [if_neg h1]
  by_cases h2 : t.1 = "volt".toList
  · rw [if_pos h2, if_neg (show ¬ (t.1 = "modemRailChargemAh".toList ∨ t.1 = "wifiRailChargemAh".toList) by rw [h2]; decide)]
    try cases parseGoInt 32 t.2 <;> rfl
  rw [if_neg h2]
  by_cases h3 : t.1 = "temp".toList
  · rw [if_pos h3, if_neg (show ¬ (t.1 = "modemRailChargemAh".toList ∨ t.1 = "wifiRailChargemAh".toList) by rw [h3]; decide)]
    try cases parseGoInt 32 t.2 <;> rfl
  rw [if_neg h3]
  by_cases h4 : t.1 = "status".toList
  · rw [if_pos h4, if_neg (show ¬ (t.1 = "modemRailChargemAh".toList ∨ t.1 = "wifiRailChargemAh".toList) by rw [h4]; decide)]
    try rfl
  rw [if_neg h4]
  by_cases h5 : t.1 = "health".toList
  · rw [if_pos h5, if_neg (show ¬ (t.1 = "modemRailChargemAh".toList ∨ t.1 = "wifiRailChargemAh".toList) by rw [h5]; decide)]
    try rfl
  rw [if_neg h5]
  by_cases h6 : t.1 = "plug".toList
  · rw [if_pos h6, if_neg (show ¬ (t.1 = "modemRailChargemAh".toList ∨ t.1 = "wifiRailChargemAh".toList) by rw [h6]; decide)]
    try rfl
  rw [if_neg h6]
  by_cases h7 : t.1 = "data_conn".toList
  · rw [if_pos h7, if_neg (show ¬ (t.1 = "modemRailChargemAh".toList ∨ t.1 = "wifiRailChargemAh".toList) by rw [h7]; decide)]
    try rfl
  rw [if_neg h7]
  by_cases h8 : t.1 = "phone_signal_strength".toList
  · rw [if_pos h8, if_neg (show ¬ (t.1 = "modemRailChargemAh".toList ∨ t.1 = "wifiRailChargemAh".toList) by rw [h8]; decide)]
    try rfl
  rw [if_neg h8]
  by_cases h9 : t.1 = "wifi_signal_strength".toList
  · rw [if_pos h9, if_neg (show ¬ (t.1 = "modemRailChargemAh".toList ∨ t.1 = "wifiRailChargemAh".toList) by rw [h9]; decide)]
    try cases parseGoInt 32 t.2 <;> rfl
  rw [if_neg h9]
  by_cases h10 : t.1 = "wifi_suppl".toList
  · rw [if_pos h10, if_neg (show ¬ (t.1 = "modemRailChargemAh".toList ∨ t.1 = "wifiRailChargemAh".toList) by rw [h10]; decide)]
    try rfl
  rw [if_neg h10]
  by_cases h11 : t.1 = "device_idle".toList
  · rw [if_pos h11, if_neg (show ¬ (t.1 = "modemRailChargemAh".toList ∨ t.1 = "wifiRailChargemAh".toList) by rw [h11]; decide)]
    try rfl
  rw [if_neg h11]
  by_cases h12 : t.1 = "modemRailChargemAh".toList ∨ t.1 = "wifiRailChargemAh".toList
  · rw [if_pos h12, if_pos h12]
    try cases parseGoInt 64 t.2 <;> rfl
  rw [if_neg h12]
  try rw [if_neg h12]
  try rfl

/-- The key/value switch never touches the Timestamp field. -/
theorem kvStep_Timestamp (e : BatteryHistoryV2Entry) (t : Str × Str) :
    (kvStep e t).Timestamp = e.Timestamp := by
  unfold kvStep
  by_cases h1 : t.1 = "charge".toList
  · rw [if_pos h1]
    try cases parseGoInt 64 t.2 <;> rfl
  rw [if_neg h1]
  by_cases h2 : t.1 = "volt".toList
  · rw [if_pos h2]
    try cases parseGoInt 32 t.2 <;> rfl
  rw [if_neg h2]
  by_cases h3 : t.1 = "temp".toList
  · rw [if_pos h3]
    try cases parseGoInt 32 t.2 <;> rfl
  rw [if_neg h3]
  by_cases h4 : t.1 = "status".toList
  · rw [if_pos h4]
    try rfl
  rw [if_neg h4]
  by_cases h5 : t.1 = "health".toList
  · rw [if_pos h5]
    try rfl
  rw [if_neg h5]
  by_cases h6 : t.1 = "plug".toList
  · rw [if_pos h6]
    try rfl
  rw [if_neg h6]
  by_cases h7 : t.1 = "data_conn".toList
  · rw [if_pos h7]
    try rfl
  rw [if_neg h7]
  by_cases h8 : t.1 = "phone_signal_strength".toList
  · rw [if_pos h8]
    try rfl
  rw [if_neg h8]
  by_cases h9 : t.1 = "wifi_signal_strength".toList
  · rw [if_pos h9]
    try cases parseGoInt 32 t.2 <;> rfl
  rw [if_neg h9]
  by_cases h10 : t.1 = "wifi_suppl".toList
  · rw [if_pos h10]
    try rfl
  rw [if_neg h10]
  by_cases h11 : t.1 = "device_idle".toList
  · rw [if_pos h11]
    try rfl
  rw [if_neg h11]
  by_cases h12 : t.1 = "modemRailChargemAh".toList ∨ t.1 = "wifiRailChargemAh".toList
  · rw [if_pos h12]
    try cases parseGoInt 64 t.2 <;> rfl
  rw [if_neg h12]
  try rfl

/-- The key/value switch never touches the TimestampMs field. -/
theorem kvStep_TimestampMs (e : BatteryHistoryV2Entry) (t : Str × Str) :
    (kvStep e t).TimestampMs = e.TimestampMs := by
  unfold kvStep
  by_cases h1 : t.1 = "charge".toList
  · rw [if_pos h1]
    try cases parseGoInt 64 t.2 <;> rfl
  rw [if_neg h1]
  by_cases h2 : t.1 = "volt".toList
  · rw [if_pos h2]
    try cases parseGoInt 32 t.2 <;> rfl
  rw [if_neg h2]
  by_cases h3 : t.1 = "temp".toList
  · rw [if_pos h3]
    try cases parseGoInt 32 t.2 <;> rfl
  rw [if_neg h3]
  by_cases h4 : t.1 = "status".toList
  · rw [if_pos h4]
    try rfl
  rw [if_neg h4]
  by_cases h5 : t.1 = "health".toList
  · rw [if_pos h5]
    try rfl
  rw [if_neg h5]
  by_cases h6 : t.1 = "plug".toList
  · rw [if_pos h6]
    try rfl
  rw [if_neg h6]
  by_cases h7 : t.1 = "data_conn".toList
  · rw [if_pos h7]
    try rfl
  rw [if_neg h7]
  by_cases h8 : t.1 = "phone_signal_strength".toList
  · rw [if_pos h8]
    try rfl
  rw [if_neg h8]
  by_cases h9 : t.1 = "wifi_signal_strength".toList
  · rw [if_pos h9]
    try cases parseGoInt 32 t.2 <;> rfl
  rw [if_neg h9]
  by_cases h10 : t.1 = "wifi_suppl".toList
  · rw [if_pos h10]
    try rfl
  rw [if_neg h10]
  by_cases h11 : t.1 = "device_idle".toList
  · rw [if_pos h11]
    try rfl
  rw [if_neg h11]
  by_cases h12 : t.1 = "modemRailChargemAh".toList ∨ t.1 = "wifiRailChargemAh".toList
  · rw [if_pos h12]
    try cases parseGoInt 64 t.2 <;> rfl
  rw [if_neg h12]
  try rfl

/-- The key/value switch never touches the BatteryPercent field. -/
theorem kvStep_BatteryPercent (e : BatteryHistoryV2Entry) (t : Str × Str) :
    (kvStep e t).BatteryPercent = e.BatteryPercent := by
  unfold kvStep
  by_cases h1 : t.1 = "charge".toList
  · rw [if_pos h1]
    try cases parseGoInt 64 t.2 <;> rfl
  rw [if_neg h1]
  by_cases h2 : t.1 = "volt".toList
  · rw [if_pos h2]
    try cases parseGoInt 32 t.2 <;> rfl
  rw [if_neg h2]
  by_cases h3 : t.1 = "temp".toList
  · rw [if_pos h3]
    try cases parseGoInt 32 t.2 <;> rfl
  rw [if_neg h3]
  by_cases h4 : t.1 = "status".toList
  · rw [if_pos h4]
    try rfl
  rw [if_neg h4]
  by_cases h5 : t.1 = "health".toList
  · rw [if_pos h5]
    try rfl
  rw [if_neg h5]
  by_cases h6 : t.1 = "plug".toList
  · rw [if_pos h6]
    try rfl
  rw [if_neg h6]
  by_cases h7 : t.1 = "data_conn".toList
  · rw [if_pos h7]
    try rfl
  rw [if_neg h7]
  by_cases h8 : t.1 = "phone_signal_strength".toList
  · rw [if_pos h8]
    try rfl
  rw [if_neg h8]
  by_cases h9 : t.1 = "wifi_signal_strength".toList
  · rw [if_pos h9]
    try cases parseGoInt 32 t.2 <;> rfl
  rw [if_neg h9]
  by_cases h10 : t.1 = "wifi_suppl".toList
  · rw [if_pos h10]
    try rfl
  rw [if_neg h10]
  by_cases h11 : t.1 = "device_idle".toList
  · rw [if_pos h11]
    try rfl
  rw [if_neg h11]
  by_cases h12 : t.1 = "modemRailChargemAh".toList ∨ t.1 = "wifiRailChargemAh".toList
  · rw [if_pos h12]
    try cases parseGoInt 64 t.2 <;> rfl
  rw [if_neg h12]
  try rfl

/-- The key/value switch never touches the States field. -/
theorem kvStep_States (e : BatteryHistoryV2Entry) (t : Str × Str) :
    (kvStep e t).States = e.States := by
  unfold kvStep
  by_cases h1 : t.1 = "charge".toList
  · rw [if_pos h1]
    try cases parseGoInt 64 t.2 <;> rfl
  rw [if_neg h1]
  by_cases h2 : t.1 = "volt".toList
  · rw [if_pos h2]
    try cases parseGoInt 32 t.2 <;> rfl
  rw [if_neg h2]
  by_cases h3 : t.1 = "temp".toList
  · rw [if_pos h3]
    try cases parseGoInt 32 t.2 <;> rfl
  rw [if_neg h3]
  by_cases h4 : t.1 = "status".toList
  · rw [if_pos h4]
    try rfl
  rw [if_neg h4]
  by_cases h5 : t.1 = "health".toList
  · rw [if_pos h5]
    try rfl
  rw [if_neg h5]
  by_cases h6 : t.1 = "plug".toList
  · rw [if_pos h6]
    try rfl
  rw [if_neg h6]
  by_cases h7 : t.1 = "data_conn".toList
  · rw [if_pos h7]
    try rfl
  rw [if_neg h7]
  by_cases h8 : t.1 = "phone_signal_strength".toList
  · rw [if_pos h8]
    try rfl
  rw [if_neg h8]
  by_cases h9 : t.1 = "wifi_signal_strength".toList
  · rw [if_pos h9]
    try cases parseGoInt 32 t.2 <;> rfl
  rw [if_neg h9]
  by_cases h10 : t.1 = "wifi_suppl".toList
  · rw [if_pos h10]
    try rfl
  rw [if_neg h10]
  by_cases h11 : t.1 = "device_idle".toList
  · rw [if_pos h11]
    try rfl
  rw [if_neg h11]
  by_cases h12 : t.1 = "modemRailChargemAh".toList ∨ t.1 = "wifiRailChargemAh".toList
  · rw [if_pos h12]
    try cases parseGoInt 64 t.2 <;> rfl
  rw [if_neg h12]
  try rfl

/-- The key/value switch never touches the WakeReasons field. -/
theorem kvStep_WakeReasons (e : BatteryHistoryV2Entry) (t : Str × Str) :
    (kvStep e t).WakeReasons = e.WakeReasons := by
  unfold kvStep
  by_cases h1 : t.1 = "charge".toList
  · rw [if_pos h1]
    try cases parseGoInt 64 t.2 <;> rfl
  rw [if_neg h1]
  by_cases h2 : t.1 = "volt".toList
  · rw [if_pos h2]
    try cases parseGoInt 32 t.2 <;> rfl
  rw [if_neg h2]
  by_cases h3 : t.1 = "temp".toList
  · rw [if_pos h3]
    try cases parseGoInt 32 t.2 <;> rfl
  rw [if_neg h3]
  by_cases h4 : t.1 = "status".toList
  · rw [if_pos h4]
    try rfl
  rw [if_neg h4]
  by_cases h5 : t.1 = "health".toList
  · rw [if_pos h5]
    try rfl
  rw [if_neg h5]
  by_cases h6 : t.1 = "plug".toList
  · rw [if_pos h6]
    try rfl
  rw [if_neg h6]
  by_cases h7 : t.1 = "data_conn".toList
  · rw [if_pos h7]
    try rfl
  rw [if_neg h7]
  by_cases h8 : t.1 = "phone_signal_strength".toList
  · rw [if_pos h8]
    try rfl
  rw [if_neg h8]
  by_cases h9 : t.1 = "wifi_signal_strength".toList
  · rw [if_pos h9]
    try cases parseGoInt 32 t.2 <;> rfl
  rw [if_neg h9]
  by_cases h10 : t.1 = "wifi_suppl".toList
  · rw [if_pos h10]
    try rfl
  rw [if_neg h10]
  by_cases h11 : t.1 = "device_idle".toList
  · rw [if_pos h11]
    try rfl
  rw [if_neg h11]
  by_cases h12 : t.1 = "modemRailChargemAh".toList ∨ t.1 = "wifiRailChargemAh".toList
  · rw [if_pos h12]
    try cases parseGoInt 64 t.2 <;> rfl
  rw [if_neg h12]
  try rfl

/-- The key/value pass leaves the ChargeMicroAh field at the value of the last
recognized, successfully coerced match for it, or keeps the prior value. -/
theorem kvPass_ChargeMicroAh (e : BatteryHistoryV2Entry) (line : Str) :
    (parseKeyValuePairsV2 e line).ChargeMicroAh =
      ((((kvScan line).filterMap selCharge).getLast?).getD e.ChargeMicroAh) := by
  unfold parseKeyValuePairsV2
  rw [kvFold_proj (fun e => e.ChargeMicroAh) (fun x t => (selCharge t).getD x) kvStep_ChargeMicroAh,
    foldl_selGetD_char]

/-- The key/value pass leaves the Voltage field at the value of the last
recognized, successfully coerced match for it, or keeps the prior value. -/
theorem kvPass_Voltage (e : BatteryHistoryV2Entry) (line : Str) :
    (parseKeyValuePairsV2 e line).Voltage =
      ((((kvScan line).filterMap selVolt).getLast?).getD e.Voltage) := by
  unfold parseKeyValuePairsV2
  rw [kvFold_proj (fun e => e.Voltage) (fun x t => (selVolt t).getD x) kvStep_Voltage,
    foldl_selGetD_char]

/-- The key/value pass leaves the Temperature field at the value of the last
recognized, successfully coerced match for it, or keeps the prior value. -/
theorem kvPass_Temperature (e : BatteryHistoryV2Entry) (line : Str) :
    (parseKeyValuePairsV2 e line).Temperature =
      ((((kvScan line).filterMap selTemp).getLast?).getD e.Temperature) := by
  unfold parseKeyValuePairsV2
  rw [kvFold_proj (fun e => e.Temperature) (fun x t => (selTemp t).getD x) kvStep_Temperature,
    foldl_selGetD_char]

/-- The key/value pass leaves the WiFiSignalStrength field at the value of the last
recognized, successfully coerced match for it, or keeps the prior value. -/
theorem kvPass_WiFiSignalStrength (e : BatteryHistoryV2Entry) (line : Str) :
    (parseKeyValuePairsV2 e line).WiFiSignalStrength =
      ((((kvScan line).filterMap selWiFiSig).getLast?).getD e.WiFiSignalStrength) := by
  unfold parseKeyValuePairsV2
  rw [kvFold_proj (fun e => e.WiFiSignalStrength) (fun x t => (selWiFiSig t).getD x) kvStep_WiFiSignalStrength,
    foldl_selGetD_char]

/-- The key/value pass leaves the Status field at the value of the last
recognized, successfully coerced match for it, or keeps the prior value. -/
theorem kvPass_Status (e : BatteryHistoryV2Entry) (line : Str) :
    (parseKeyValuePairsV2 e line).Status =
      ((((kvScan line).filterMap selStatus).getLast?).getD e.Status) := by
  unfold parseKeyValuePairsV2
  rw [kvFold_proj (fun e => e.Status) (fun x t => (selStatus t).getD x) kvStep_Status,
    foldl_selGetD_char]

/-- The key/value pass leaves the Health field at the value of the last
recognized, successfully coerced match for it, or keeps the prior value. -/
theorem kvPass_Health (e : BatteryHistoryV2Entry) (line : Str) :
    (parseKeyValuePairsV2 e line).Health =
      ((((kvScan line).filterMap selHealth).getLast?).getD e.Health) := by
  unfold parseKeyValuePairsV2
  rw [kvFold_proj (fun e => e.Health) (fun x t => (selHealth t).getD x) kvStep_Health,
    foldl_selGetD_char]

/-- The key/value pass leaves the PlugType field at the value of the last
recognized, successfully coerced match for it, or keeps the prior value. -/
theorem kvPass_PlugType (e : BatteryHistoryV2Entry) (line : Str) :
    (parseKeyValuePairsV2 e line).PlugType =
      ((((kvScan line).filterMap selPlug).getLast?).getD e.PlugType) := by
  unfold parseKeyValuePairsV2
  rw [kvFold_proj (fun e => e.PlugType) (fun x t => (selPlug t).getD x) kvStep_PlugType,
    foldl_selGetD_char]

/-- The key/value pass leaves the DataConn field at the value of the last
recognized, successfully coerced match for it, or keeps the prior value. -/
theorem kvPass_DataConn (e : BatteryHistoryV2Entry) (line : Str) :
    (parseKeyValuePairsV2 e line).DataConn =
      ((((kvScan line).filterMap selDataConn).getLast?).getD e.DataConn) := by
  unfold parseKeyValuePairsV2
  rw [kvFold_proj (fun e => e.DataConn) (fun x t => (selDataConn t).getD x) kvStep_DataConn,
    foldl_selGetD_char]

/-- The key/value pass leaves the PhoneSignalStrength field at the value of the last
recognized, successfully coerced match for it, or keeps the prior value. -/
theorem kvPass_PhoneSignalStrength (e : BatteryHistoryV2Entry) (line : Str) :
    (parseKeyValuePairsV2 e line).PhoneSignalStrength =
      ((((kvScan line).filterMap selPhoneSig).getLast?).getD e.PhoneSignalStrength) := by
  unfold parseKeyValuePairsV2
  rw [kvFold_proj (fun e => e.PhoneSignalStrength) (fun x t => (selPhoneSig t).getD x) kvStep_PhoneSignalStrength,
    foldl_selGetD_char]

/-- The key/value pass leaves the WiFiSupplicantState field at the value of the last
recognized, successfully coerced match for it, or keeps the prior value. -/
theorem kvPass_WiFiSupplicantState (e : BatteryHistoryV2Entry) (line : Str) :
    (parseKeyValuePairsV2 e line).WiFiSupplicantState =
      ((((kvScan line).filterMap selWiFiSuppl).getLast?).getD e.WiFiSupplicantState) := by
  unfold parseKeyValuePairsV2
  rw [kvFold_proj (fun e => e.WiFiSupplicantState) (fun x t => (selWiFiSuppl t).getD x) kvStep_WiFiSupplicantState,
    foldl_selGetD_char]

/-- The key/value pass leaves the DeviceIdleMode field at the value of the last
recognized, successfully coerced match for it, or keeps the prior value. -/
theorem kvPass_DeviceIdleMode (e : BatteryHistoryV2Entry) (line : Str) :
    (parseKeyValuePairsV2 e line).DeviceIdleMode =
      ((((kvScan line).filterMap selDeviceIdle).getLast?).getD e.DeviceIdleMode) := by
  unfold parseKeyValuePairsV2
  rw [kvFold_proj (fun e => e.DeviceIdleMode) (fun x t => (selDeviceIdle t).getD x) kvStep_DeviceIdleMode,
    foldl_selGetD_char]

/-- The key/value pass performs on RailCharges exactly the write sequence
of its successfully coerced rail-charge matches. -/
theorem kvPass_RailCharges (e : BatteryHistoryV2Entry) (line : Str) :
    (parseKeyValuePairsV2 e line).RailCharges =
      (e.RailCharges.map (fun ml =>
        mapWrites ml ((kvScan line).filterMap selRail))) := by
  unfold parseKeyValuePairsV2
  rw [kvFold_proj (fun e => e.RailCharges) (condSetStep selRail)
    kvStep_RailCharges, foldl_condSet_char]

/-- The key/value pass never touches the Timestamp field. -/
theorem kvPass_Timestamp (e : BatteryHistoryV2Entry) (line : Str) :
    (parseKeyValuePairsV2 e line).Timestamp = e.Timestamp := by
  unfold parseKeyValuePairsV2
  rw [kvFold_proj (fun e => e.Timestamp) (fun x _ => x) kvStep_Timestamp, foldl_const]

/-- The key/value pass never touches the TimestampMs field. -/
theorem kvPass_TimestampMs (e : BatteryHistoryV2Entry) (line : Str) :
    (parseKeyValuePairsV2 e line).TimestampMs = e.TimestampMs := by
  unfold parseKeyValuePairsV2
  rw [kvFold_proj (fun e => e.TimestampMs) (fun x _ => x) kvStep_TimestampMs, foldl_const]

/-- The key/value pass never touches the BatteryPercent field. -/
theorem kvPass_BatteryPercent (e : BatteryHistoryV2Entry) (line : Str) :
    (parseKeyValuePairsV2 e line).BatteryPercent = e.BatteryPercent := by
  unfold parseKeyValuePairsV2
  rw [kvFold_proj (fun e => e.BatteryPercent) (fun x _ => x) kvStep_BatteryPercent, foldl_const]

/-- The key/value pass never touches the States field. -/
theorem kvPass_States (e : BatteryHistoryV2Entry) (line : Str) :
    (parseKeyValuePairsV2 e line).States = e.States := by
  unfold parseKeyValuePairsV2
  rw [kvFold_proj (fun e => e.States) (fun x _ => x) kvStep_States, foldl_const]

/-- The key/value pass never touches the WakeReasons field. -/
theorem kvPass_WakeReasons (e : BatteryHistoryV2Entry) (line : Str) :
    (parseKeyValuePairsV2 e line).WakeReasons = e.WakeReasons := by
  unfold parseKeyValuePairsV2
  rw [kvFold_proj (fun e => e.WakeReasons) (fun x _ => x) kvStep_WakeReasons, foldl_const]

/-- Replaying an optional map's write sequence twice equals once. -/
theorem option_map_writes_idem {α : Type} (o : Option (List (Str × α)))
    (L : List (Str × α)) :
    ((o.map (fun ml => mapWrites ml L)).map (fun ml => mapWrites ml L)) =
      o.map (fun ml => mapWrites ml L) := by
  cases o <;> simp [mapWrites_idem]

/-- Composition form of `option_map_writes_idem`. -/
theorem option_map_writes_comp {α : Type} (o : Option (List (Str × α)))
    (L : List (Str × α)) :
    Option.map ((fun ml => mapWrites ml L) ∘ (fun ml => mapWrites ml L)) o =
      Option.map (fun ml => mapWrites ml L) o := by
  cases o <;> simp [mapWrites_idem]

/-- The key/value pass commutes with replacing the States container. -/
theorem kvPass_set_States (e : BatteryHistoryV2Entry) (line : Str)
    (s : Option (List (Str × Bool))) :
    parseKeyValuePairsV2 { e with States := s } line =
      { parseKeyValuePairsV2 e line with States := s } := by
  apply BatteryHistoryV2Entry.ext <;>
    simp [kvPass_ChargeMicroAh, kvPass_Voltage, kvPass_Temperature,
      kvPass_WiFiSignalStrength, kvPass_Status, kvPass_Health, kvPass_PlugType,
      kvPass_DataConn, kvPass_PhoneSignalStrength, kvPass_WiFiSupplicantState,
      kvPass_DeviceIdleMode, kvPass_RailCharges, kvPass_Timestamp,
      kvPass_TimestampMs, kvPass_BatteryPercent, kvPass_States,
      kvPass_WakeReasons]

/-- The key/value pass commutes with replacing the WakeReasons container. -/
theorem kvPass_set_WakeReasons (e : BatteryHistoryV2Entry) (line : Str)
    (w : Option (List (Str × Bool))) :
    parseKeyValuePairsV2 { e with WakeReasons := w } line =
      { parseKeyValuePairsV2 e line with WakeReasons := w } := by
  apply BatteryHistoryV2Entry.ext <;>
    simp [kvPass_ChargeMicroAh, kvPass_Voltage, kvPass_Temperature,
      kvPass_WiFiSignalStrength, kvPass_Status, kvPass_Health, kvPass_PlugType,
      kvPass_DataConn, kvPass_PhoneSignalStrength, kvPass_WiFiSupplicantState,
      kvPass_DeviceIdleMode, kvPass_RailCharges, kvPass_Timestamp,
      kvPass_TimestampMs, kvPass_BatteryPercent, kvPass_States,
      kvPass_WakeReasons]

/-- The key/value pass commutes with replacing the Timestamp field. -/
theorem kvPass_set_Timestamp (e : BatteryHistoryV2Entry) (line : Str)
    (ts : GoTime) :
    parseKeyValuePairsV2 { e with Timestamp := ts } line =
      { parseKeyValuePairsV2 e line with Timestamp := ts } := by
  apply BatteryHistoryV2Entry.ext <;>
    simp [kvPass_ChargeMicroAh, kvPass_Voltage, kvPass_Temperature,
      kvPass_WiFiSignalStrength, kvPass_Status, kvPass_Health, kvPass_PlugType,
      kvPass_DataConn, kvPass_PhoneSignalStrength, kvPass_WiFiSupplicantState,
      kvPass_DeviceIdleMode, kvPass_RailCharges, kvPass_Timestamp,
      kvPass_TimestampMs, kvPass_BatteryPercent, kvPass_States,
      kvPass_WakeReasons]

/-- The toggle pass and the key/value pass commute. -/
theorem state_kv_comm (e : BatteryHistoryV2Entry) (r : Str) :
    parseStateTransitionsV2 (parseKeyValuePairsV2 e r) r =
      parseKeyValuePairsV2 (parseStateTransitionsV2 e r) r := by
  apply BatteryHistoryV2Entry.ext <;>
    simp [statePass_char, kvPass_ChargeMicroAh, kvPass_Voltage, kvPass_Temperature,
      kvPass_WiFiSignalStrength, kvPass_Status, kvPass_Health, kvPass_PlugType,
      kvPass_DataConn, kvPass_PhoneSignalStrength, kvPass_WiFiSupplicantState,
      kvPass_DeviceIdleMode, kvPass_RailCharges, kvPass_Timestamp,
      kvPass_TimestampMs, kvPass_BatteryPercent, kvPass_States,
      kvPass_WakeReasons]

/-- The wake-reason pass and the key/value pass commute. -/
theorem wake_kv_comm (e : BatteryHistoryV2Entry) (r : Str) :
    parseWakeReasonsV2 (parseKeyValuePairsV2 e r) r =
      parseKeyValuePairsV2 (parseWakeReasonsV2 e r) r := by
  apply BatteryHistoryV2Entry.ext <;>
    simp [wakePass_char, kvPass_ChargeMicroAh, kvPass_Voltage, kvPass_Temperature,
      kvPass_WiFiSignalStrength, kvPass_Status, kvPass_Health, kvPass_PlugType,
      kvPass_DataConn, kvPass_PhoneSignalStrength, kvPass_WiFiSupplicantState,
      kvPass_DeviceIdleMode, kvPass_RailCharges, kvPass_Timestamp,
      kvPass_TimestampMs, kvPass_BatteryPercent, kvPass_States,
      kvPass_WakeReasons]

/-- The toggle pass and the wake-reason pass commute. -/
theorem state_wake_comm (e : BatteryHistoryV2Entry) (r : Str) :
    parseStateTransitionsV2 (parseWakeReasonsV2 e r) r =
      parseWakeReasonsV2 (parseStateTransitionsV2 e r) r := by
  apply BatteryHistoryV2Entry.ext <;>
    simp [statePass_char, wakePass_char]

/-- The toggle pass is idempotent. -/
theorem statePass_idem (e : BatteryHistoryV2Entry) (r : Str) :
    parseStateTransitionsV2 (parseStateTransitionsV2 e r) r =
      parseStateTransitionsV2 e r := by
  apply BatteryHistoryV2Entry.ext <;> simp [statePass_char, option_map_writes_idem, option_map_writes_comp]

/-- The wake-reason pass is idempotent. -/
theorem wakePass_idem (e : BatteryHistoryV2Entry) (r : Str) :
    parseWakeReasonsV2 (parseWakeReasonsV2 e r) r =
      parseWakeReasonsV2 e r := by
  apply BatteryHistoryV2Entry.ext <;> simp [wakePass_char, option_map_writes_idem, option_map_writes_comp]

/-- The key/value pass is idempotent. -/
theorem kvPass_idem (e : BatteryHistoryV2Entry) (r : Str) :
    parseKeyValuePairsV2 (parseKeyValuePairsV2 e r) r =
      parseKeyValuePairsV2 e r := by
  apply BatteryHistoryV2Entry.ext <;>
    simp [kvPass_ChargeMicroAh, kvPass_Voltage, kvPass_Temperature,
      kvPass_WiFiSignalStrength, kvPass_Status, kvPass_Health, kvPass_PlugType,
      kvPass_DataConn, kvPass_PhoneSignalStrength, kvPass_WiFiSupplicantState,
      kvPass_DeviceIdleMode, kvPass_RailCharges, kvPass_Timestamp,
      kvPass_TimestampMs, kvPass_BatteryPercent, kvPass_States,
      kvPass_WakeReasons, getD_getD, option_map_writes_idem,
      option_map_writes_comp]

/-- An ASCII digit is not a Go white-space character. -/
theorem digit_not_space (x : Char) (h : isDigitC x = true) :
    isGoSpace x = false := by
  unfold isDigitC at h
  simp only [Bool.and_eq_true, decide_eq_true_eq] at h
  by_contra hc
  simp only [Bool.not_eq_false] at hc
  unfold isGoSpace at hc
  simp only [Bool.or_eq_true, Bool.and_eq_true, decide_eq_true_eq] at hc
  omega

/-- Dropping a prefix-run across an append. -/
theorem dropWhile_append_all (p : Char → Bool) (xs ys : Str) :
    (xs ++ ys).dropWhile p =
      if xs.all p then ys.dropWhile p else xs.dropWhile p ++ ys := by
  induction xs with
  | nil => simp
  | cons c t ih =>
    by_cases hc : p c
    · simp [List.dropWhile_cons, hc, ih, List.all_cons]
    · simp [List.dropWhile_cons, hc, List.all_cons]

/-- Trimming keeps the first two characters of a string that starts with
two non-space characters. -/
theorem trimSpace_two_nonspace (a b : Char) (u : Str)
    (ha : isGoSpace a = false) (hb : isGoSpace b = false) :
    ∃ t, trimSpace (a :: b :: u) = a :: b :: t := by
  unfold trimSpace
  rw [List.dropWhile_cons, ha]
  simp only [Bool.false_eq_true, if_false]
  have hrev : (a :: b :: u).reverse = u.reverse ++ [b, a] := by simp
  rw [hrev, dropWhile_append_all]
  by_cases hall : u.reverse.all isGoSpace
  · rw [if_pos hall]
    rw [List.dropWhile_cons, hb]
    simp
  · rw [if_neg hall]
    exact ⟨(u.reverse.dropWhile isGoSpace).reverse, by simp⟩

/-- Inversion of the month-day matcher: a successful match shows the line
opens with two ASCII digits. -/
theorem matchMD_inv (l : Str) (g : Str × Str) (h : matchMD l = some g) :
    ∃ a b e c d rest, l = a :: b :: e :: c :: d :: rest ∧
      isDigitC a = true ∧ isDigitC b = true := by
  match l with
  | [] => simp [matchMD] at h
  | [a] => simp [matchMD] at h
  | [a, b] => simp [matchMD] at h
  | [a, b, e] => simp [matchMD] at h
  | [a, b, e, c] => simp [matchMD] at h
  | a :: b :: e :: c :: d :: rest =>
    simp only [matchMD] at h
    split_ifs at h with hc
    · simp only [Bool.and_eq_true] at hc
      exact ⟨a, b, e, c, d, rest, rfl, hc.1.1.1.1, hc.1.1.1.2⟩

/-- A line matching the Format-2 pattern cannot also carry the legacy
marker: it starts with two digits, which survive trimming, while the
marker needs a comma in the second position. -/
theorem v2_not_legacy (l : Str) (h : isV2Line l = true) :
    isLegacyLine l = false := by
  unfold isV2Line at h
  cases hm : matchMD l with
  | none =>
    rw [historyMatchV2, hm] at h
    simp at h
  | some g =>
    obtain ⟨a, b, e, c, d, rest, hl, ha, hb⟩ := matchMD_inv l g hm
    subst hl
    obtain ⟨t, ht⟩ := trimSpace_two_nonspace a b (e :: c :: d :: rest)
      (digit_not_space a ha) (digit_not_space b hb)
    unfold isLegacyLine
    rw [ht]
    unfold isDigitC at hb
    simp only [Bool.and_eq_true, decide_eq_true_eq] at hb
    simp only [List.isPrefixOf, Bool.and_eq_true, beq_iff_eq]
    by_contra hc
    simp only [Bool.not_eq_false, Bool.and_eq_true, beq_iff_eq] at hc
    have hbc : b = ',' := hc.2.1.symm
    rw [hbc] at hb
    exact absurd hb (by decide)

/-- The detector loop agrees with the first-decisive-position description;
this uses that no line is both a legacy-marker line and a Format-2 line. -/
theorem detectGo_eq (ls : List Str) :
    detectGo ls =
      (match firstIdxWhere isLegacyLine ls, firstIdxWhere isV2Line ls with
        | some i, some j => if i ≤ j then 1 else 2
        | some _, none => 1
        | none, some _ => 2
        | none, none => 1) := by
  induction ls with
  | nil => rfl
  | cons l t ih =>
    by_cases hL : isLegacyLine l = true
    · have hV : isV2Line l = false := by
        by_contra hc
        simp only [Bool.not_eq_false] at hc
        rw [v2_not_legacy l hc] at hL
        exact absurd hL (by decide)
      rw [detectGo, if_pos hL]
      rw [firstIdxWhere, if_pos hL, firstIdxWhere, hV]
      simp only [Bool.false_eq_true, if_false]
      cases firstIdxWhere isV2Line t <;> simp
    · by_cases hV : isV2Line l = true
      · rw [detectGo, if_neg (by simp [hL]), if_pos hV]
        rw [firstIdxWhere, if_neg hL, firstIdxWhere, if_pos hV]
        cases firstIdxWhere isLegacyLine t <;> simp
      · rw [detectGo, if_neg (by simp [hL]), if_neg (by simp [hV]), ih]
        rw [firstIdxWhere, if_neg hL, firstIdxWhere, if_neg hV]
        cases firstIdxWhere isLegacyLine t <;>
          cases firstIdxWhere isV2Line t <;>
          simp [Nat.succ_le_succ_iff]

/-- The toggle pass commutes with replacing the Timestamp field. -/
theorem statePass_set_Timestamp (e : BatteryHistoryV2Entry) (r : Str)
    (ts : GoTime) :
    parseStateTransitionsV2 { e with Timestamp := ts } r =
      { parseStateTransitionsV2 e r with Timestamp := ts } := by
  apply BatteryHistoryV2Entry.ext <;> simp [statePass_char]

/-- The wake-reason pass commutes with replacing the Timestamp field. -/
theorem wakePass_set_Timestamp (e : BatteryHistoryV2Entry) (r : Str)
    (ts : GoTime) :
    parseWakeReasonsV2 { e with Timestamp := ts } r =
      { parseWakeReasonsV2 e r with Timestamp := ts } := by
  apply BatteryHistoryV2Entry.ext <;> simp [wakePass_char]

/-- The wall-clock argument is only consulted on the fallback path: a
composition that yields a parsed calendar timestamp yields the same one
for every wall-clock value. -/
theorem mkTimestamp_parsed_stable (md tod : Str) (n n' : Nat)
    (y mo dy hr mi se ms : Nat)
    (hp : mkTimestamp md tod n = GoTime.parsed y mo dy hr mi se ms) :
    mkTimestamp md tod n' = GoTime.parsed y mo dy hr mi se ms := by
  unfold mkTimestamp at hp ⊢
  split at hp
  · split_ifs at hp ⊢ with hc
    exact hp
  · exact GoTime.noConfusion hp

/-- A key looked up in a write sequence over the empty map is present
exactly when some write carries it. -/
theorem mapFind_writes_nil_isSome {α : Type} (L : List (Str × α)) (k : Str) :
    (mapFind (mapWrites [] L) k).isSome = true ↔ ∃ kv ∈ L, kv.1 = k := by
  rw [mapFind_writes]
  cases hf : L.reverse.find? (fun kv => kv.1 == k) with
  | some kv =>
    simp only [Option.isSome_some, true_iff]
    have hmem := List.mem_of_find?_eq_some hf
    have hp := List.find?_some hf
    simp only [beq_iff_eq] at hp
    exact ⟨kv, List.mem_reverse.mp hmem, hp⟩
  | none =>
    rw [List.find?_eq_none] at hf
    simp only [mapFind, Option.isSome_none, Bool.false_eq_true, false_iff]
    rintro ⟨kv, hmem, hk⟩
    have hnk := hf kv (List.mem_reverse.mpr hmem)
    simp only [beq_iff_eq] at hnk
    exact hnk hk

/-- The key list of a Go map assignment: unchanged when the key is
present, extended at the end when it is new. -/
theorem mapSet_keys {α : Type} (m : List (Str × α)) (k : Str) (v : α) :
    (mapSet m k v).map Prod.fst =
      if (mapFind m k).isSome then m.map Prod.fst
      else m.map Prod.fst ++ [k] := by
  induction m with
  | nil => simp [mapSet, mapFind]
  | cons hd t ih =>
    obtain ⟨k0, v0⟩ := hd
    by_cases h0 : k0 = k
    · subst h0
      simp [mapSet, mapFind]
    · simp only [mapSet, if_neg h0, mapFind, List.map_cons, ih]
      split_ifs <;> rfl

/-- A key is absent from the lookup exactly when it is not among the
keys. -/
theorem mapFind_eq_none {α : Type} (m : List (Str × α)) (k : Str) :
    mapFind m k = none ↔ k ∉ m.map Prod.fst := by
  induction m with
  | nil => simp [mapFind]
  | cons hd t ih =>
    obtain ⟨k0, v0⟩ := hd
    simp only [mapFind, List.map_cons, List.mem_cons]
    by_cases h0 : k0 = k
    · subst h0
      rw [if_pos rfl]
      constructor
      · intro h; exact Option.noConfusion h
      · intro h; exact absurd (Or.inl rfl) h
    · rw [if_neg h0, ih]
      constructor
      · intro h hor
        rcases hor with he | hm
        · exact h0 he.symm
        · exact h hm
      · intro h hm
        exact h (Or.inr hm)

/-- Go map assignment preserves distinctness of keys. -/
theorem mapSet_keys_nodup {α : Type} (m : List (Str × α)) (k : Str) (v : α)
    (h : (m.map Prod.fst).Nodup) : ((mapSet m k v).map Prod.fst).Nodup := by
  rw [mapSet_keys]
  split_ifs with hs
  · exact h
  · have : k ∉ m.map Prod.fst := by
      rw [← mapFind_eq_none]
      cases hm : mapFind m k
      · rfl
      · rw [hm] at hs
        exact absurd rfl hs
    simp [List.nodup_append, h, this]

/-- A write sequence preserves distinctness of keys. -/
theorem mapWrites_keys_nodup {α : Type} (L : List (Str × α))
    (m : List (Str × α)) (h : (m.map Prod.fst).Nodup) :
    ((mapWrites m L).map Prod.fst).Nodup := by
  induction L generalizing m with
  | nil => exact h
  | cons kv t ih =>
    rw [mapWrites_cons]
    exact ih _ (mapSet_keys_nodup m kv.1 kv.2 h)

/-- A failed numeric coercion leaves the entry untouched. -/
theorem kvStep_skip_bad (e : BatteryHistoryV2Entry) (t : Str × Str)
    (h : badNumericToken t) : kvStep e t = e := by
  rcases h with ⟨hk | hk | hk, hp⟩ | ⟨hk | hk | hk, hp⟩
  · unfold kvStep
    rw [if_neg (show ¬ t.1 = "charge".toList by rw [hk]; decide)]
    rw [if_pos hk]
    simp only [hp]
  · unfold kvStep
    rw [if_neg (show ¬ t.1 = "charge".toList by rw [hk]; decide)]
    rw [if_neg (show ¬ t.1 = "volt".toList by rw [hk]; decide)]
    rw [if_pos hk]
    simp only [hp]
  · unfold kvStep
    rw [if_neg (show ¬ t.1 = "charge".toList by rw [hk]; decide)]
    rw [if_neg (show ¬ t.1 = "volt".toList by rw [hk]; decide)]
    rw [if_neg (show ¬ t.1 = "temp".toList by rw [hk]; decide)]
    rw [if_neg (show ¬ t.1 = "status".toList by rw [hk]; decide)]
    rw [if_neg (show ¬ t.1 = "health".toList by rw [hk]; decide)]
    rw [if_neg (show ¬ t.1 = "plug".toList by rw [hk]; decide)]
    rw [if_neg (show ¬ t.1 = "data_conn".toList by rw [hk]; decide)]
    rw [if_neg (show ¬ t.1 = "phone_signal_strength".toList by rw [hk]; decide)]
    rw [if_pos hk]
    simp only [hp]
  · unfold kvStep
    rw [if_pos hk]
    simp only [hp]
  · unfold kvStep
    rw [if_neg (show ¬ t.1 = "charge".toList by rw [hk]; decide)]
    rw [if_neg (show ¬ t.1 = "volt".toList by rw [hk]; decide)]
    rw [if_neg (show ¬ t.1 = "temp".toList by rw [hk]; decide)]
    rw [if_neg (show ¬ t.1 = "status".toList by rw [hk]; decide)]
    rw [if_neg (show ¬ t.1 = "health".toList by rw [hk]; decide)]
    rw [if_neg (show ¬ t.1 = "plug".toList by rw [hk]; decide)]
    rw [if_neg (show ¬ t.1 = "data_conn".toList by rw [hk]; decide)]
    rw [if_neg (show ¬ t.1 = "phone_signal_strength".toList by rw [hk]; decide)]
    rw [if_neg (show ¬ t.1 = "wifi_signal_strength".toList by rw [hk]; decide)]
    rw [if_neg (show ¬ t.1 = "wifi_suppl".toList by rw [hk]; decide)]
    rw [if_neg (show ¬ t.1 = "device_idle".toList by rw [hk]; decide)]
    rw [if_pos (Or.inl hk)]
    simp only [hp]
  · unfold kvStep
    rw [if_neg (show ¬ t.1 = "charge".toList by rw [hk]; decide)]
    rw [if_neg (show ¬ t.1 = "volt".toList by rw [hk]; decide)]
    rw [if_neg (show ¬ t.1 = "temp".toList by rw [hk]; decide)]
    rw [if_neg (show ¬ t.1 = "status".toList by rw [hk]; decide)]
    rw [if_neg (show ¬ t.1 = "health".toList by rw [hk]; decide)]
    rw [if_neg (show ¬ t.1 = "plug".toList by rw [hk]; decide)]
    rw [if_neg (show ¬ t.1 = "data_conn".toList by rw [hk]; decide)]
    rw [if_neg (show ¬ t.1 = "phone_signal_strength".toList by rw [hk]; decide)]
    rw [if_neg (show ¬ t.1 = "wifi_signal_strength".toList by rw [hk]; decide)]
    rw [if_neg (show ¬ t.1 = "wifi_suppl".toList by rw [hk]; decide)]
    rw [if_neg (show ¬ t.1 = "device_idle".toList by rw [hk]; decide)]
    rw [if_pos (Or.inr hk)]
    simp only [hp]

/-- An identifier outside the vocabulary leaves the entry untouched. -/
theorem kvStep_skip_unrecognized (e : BatteryHistoryV2Entry) (t : Str × Str)
    (h : t.1 ∉ recognizedKeys) : kvStep e t = e := by
  simp only [recognizedKeys, List.mem_cons, List.not_mem_nil, or_false] at h
  push_neg at h
  obtain ⟨h1, h2, h3, h4, h5, h6, h7, h8, h9, h10, h11, h12, h13⟩ := h
  unfold kvStep
  rw [if_neg h1, if_neg h2, if_neg h3, if_neg h4, if_neg h5, if_neg h6,
    if_neg h7, if_neg h8, if_neg h9, if_neg h10, if_neg h11,
    if_neg (not_or.mpr ⟨h12, h13⟩)]

/-- An accepted toggle writes under its own state name. -/
theorem toggleSel_some_fst (line : Str) (m : Nat × Char × Str)
    (kv : Str × Bool) (h : toggleSel line m = some kv) : kv.1 = m.2.2 := by
  unfold toggleSel at h
  split_ifs at h
  split at h
  · exact Option.noConfusion h
  · split_ifs at h
    exact (Option.some.injEq _ _ ▸ h.symm) ▸ rfl

/-- A state name is present in the produced States container exactly when
some toggle match carries that name and passes the code's acceptance test
(no `=`, boundary characters checked at the first occurrence of the
matched text). -/
theorem states_mem_iff (r : Str) (name : Str) :
    (goFind (remainderStates r) name).isSome = true ↔
      ∃ m ∈ toggleScan r, m.2.2 = name ∧ (toggleSel r m).isSome = true := by
  unfold remainderStates
  rw [statePass_char]
  show (mapFind (mapWrites []
      ((toggleScan r).filterMap (toggleSel r))) name).isSome = true ↔ _
  rw [mapFind_writes_nil_isSome]
  constructor
  · rintro ⟨kv, hkv, hk⟩
    rw [List.mem_filterMap] at hkv
    obtain ⟨m, hm, hsel⟩ := hkv
    refine ⟨m, hm, ?_, ?_⟩
    · rw [← toggleSel_some_fst r m kv hsel]
      exact hk
    · rw [hsel]
      rfl
  · rintro ⟨m, hm, hname, hsome⟩
    cases hsel : toggleSel r m with
    | none =>
      rw [hsel] at hsome
      exact Bool.noConfusion hsome
    | some kv =>
      refine ⟨kv, ?_, ?_⟩
      · rw [List.mem_filterMap]
        exact ⟨m, hm, hsel⟩
      · rw [toggleSel_some_fst r m kv hsel]
        exact hname

/-- The stored boolean for a state name is the one of the last accepted
toggle write carrying that name. -/
theorem states_last_write (r : Str) (name : Str) :
    goFind (remainderStates r) name =
      (match (acceptedToggles r).reverse.find? (fun kv => kv.1 == name) with
        | some kv => some kv.2
        | none => none) := by
  unfold remainderStates acceptedToggles
  rw [statePass_char]
  show mapFind (mapWrites []
      ((toggleScan r).filterMap (toggleSel r))) name = _
  rw [mapFind_writes]
  cases hf : ((toggleScan r).filterMap (toggleSel r)).reverse.find?
      (fun kv => kv.1 == name) <;> rfl

/-- Membership in the produced WakeReasons set is exactly membership in
the list of quoted wake-reason texts found in the remainder. -/
theorem wakeReasons_mem_iff (r : Str) (reason : Str) :
    goFind (remainderWakeReasons r) reason = some true ↔
      reason ∈ wakeScan r := by
  unfold remainderWakeReasons
  rw [wakePass_char]
  show mapFind (mapWrites [] ((wakeScan r).filterMap wakeSel)) reason
      = some true ↔ _
  rw [mapFind_writes]
  cases hf : ((wakeScan r).filterMap wakeSel).reverse.find?
      (fun kv => kv.1 == reason) with
  | some kv =>
    have hmem := List.mem_of_find?_eq_some hf
    have hp := List.find?_some hf
    simp only [beq_iff_eq] at hp
    rw [List.mem_reverse, List.mem_filterMap] at hmem
    obtain ⟨x, hx, hsel⟩ := hmem
    unfold wakeSel at hsel
    have hkv : kv = (x, true) := ((Option.some.injEq _ _).mp hsel).symm
    subst hkv
    constructor
    · intro _
      rw [← hp]
      exact hx
    · intro _
      rfl
  | none =>
    rw [List.find?_eq_none] at hf
    constructor
    · intro h
      exact Option.noConfusion (show (none : Option Bool) = some true from h)
    · intro hmem
      have hin : (reason, true) ∈ ((wakeScan r).filterMap wakeSel).reverse := by
        rw [List.mem_reverse, List.mem_filterMap]
        exact ⟨reason, hmem, rfl⟩
      have hcontra := hf _ hin
      simp at hcontra

/-- The produced WakeReasons container is present and has distinct keys:
repeated reason strings collapse to one membership. -/
theorem wakeReasons_keys_nodup (r : Str) :
    ∃ l, remainderWakeReasons r = some l ∧ (l.map Prod.fst).Nodup := by
  unfold remainderWakeReasons
  rw [wakePass_char]
  exact ⟨_, rfl, mapWrites_keys_nodup _ [] (by simp)⟩

/-- Claim C4 counterexample: an entry with a negative voltage.  The claim
says the non-zero voltage must contribute a `volt=` fragment, but
`ConvertToCSVEntry` tests `Voltage > 0` and omits it, so the produced
record differs from the claimed one. -/
theorem claim_C4_counterexample :
    ConvertToCSVEntry { freshEntry (GoTime.wallClock 0) with Voltage := -1 } ≠
      claimC4Record { freshEntry (GoTime.wallClock 0) with Voltage := -1 } := by
  decide

/-- Claim C4 (amended): ConvertToCSVEntry maps every entry to the record
with description "Battery state change", category "Battery State", source
"system", start offset the entry's millisecond offset, and a comma-joined
value holding exactly the fragments of the non-empty status and health and
the strictly positive voltage and temperature, in that fixed order; the
spec's own vector (Status="discharging", Voltage=4170, Temperature=0,
Health="") yields exactly "status=discharging,volt=4170". -/
theorem claim_C4 :
    (∀ e, ConvertToCSVEntry e = amendedC4Record e) ∧
    (ConvertToCSVEntry { freshEntry (GoTime.wallClock 0) with
        Status := "discharging".toList, Voltage := 4170 }).Value =
      "status=discharging,volt=4170".toList := by
  constructor
  · intro e
    unfold ConvertToCSVEntry amendedC4Record
    by_cases hS : e.Status = [] <;> by_cases hH : e.Health = [] <;>
      by_cases hV : 0 < e.Voltage <;> by_cases hT : 0 < e.Temperature <;>
      simp [hS, hH, hV, hT]
  · decide

/-- Claim C1 counterexample: in the remainder `a+run +run` the second
toggle match `+run` (at position 6) is delimiter-bounded and contains no
`=`, so the claim requires `run` to be recorded; the code checks the
boundary characters at `strings.Index`, the FIRST occurrence of `+run`
(position 1, preceded by `a`), and rejects both matches, leaving States
empty. -/
theorem claim_C1_counterexample : claimC1Check ("a+run +run".toList) = false := by
  decide

/-- Claim C1 (amended): a toggle match is recorded in States exactly when
(i) its matched text contains no `=` and (ii)-(iii) the characters
immediately around the FIRST occurrence in the remainder of that matched
text (per `strings.Index`) are delimiters — that acceptance test is
`toggleSel`; a name is present in States exactly when some match with that
name is accepted.  The two named vectors hold: `+wifi_radio_extra=1` sets
no `wifi_radio` toggle and `+wake_lock=1000:"..."` leaves no `wake_lock`
key. -/
theorem claim_C1 :
    (∀ r name, (goFind (remainderStates r) name).isSome = true ↔
      ∃ m ∈ toggleScan r, m.2.2 = name ∧ (toggleSel r m).isSome = true) ∧
    goFind (remainderStates ("+wifi_radio_extra=1".toList))
      ("wifi_radio".toList) = none ∧
    goFind (remainderStates
        ("+wake_lock=1000:\"*alarm*:TIME_TICK\"".toList))
      ("wake_lock".toList) = none := by
  refine ⟨states_mem_iff, ?_, ?_⟩
  · decide
  · decide

/-- Claim C6: when a state name occurs several times among the accepted
toggles of one remainder, the boolean stored in States is that of the last
accepted occurrence in left-to-right order; in particular the remainder
`+running +wifi -running` stores running=false and wifi=true. -/
theorem claim_C6 :
    (∀ r name, goFind (remainderStates r) name =
      (match (acceptedToggles r).reverse.find? (fun kv => kv.1 == name) with
        | some kv => some kv.2
        | none => none)) ∧
    goFind (remainderStates ("+running +wifi -running".toList))
      ("running".toList) = some false ∧
    goFind (remainderStates ("+running +wifi -running".toList))
      ("wifi".toList) = some true := by
  refine ⟨states_last_write, ?_, ?_⟩
  · decide
  · decide

/-- Claim C7: every `wake_reason=<digits>:"<text>"` token contributes
exactly the quoted text, quotes stripped, as a member of the WakeReasons
set; lookup succeeds exactly for the scanned reason texts, the key list of
the produced container is duplicate-free (set semantics), and repeated
identical reasons collapse to a single membership. -/
theorem claim_C7 :
    (∀ r reason, goFind (remainderWakeReasons r) reason = some true ↔
      reason ∈ wakeScan r) ∧
    (∀ r, ∃ l, remainderWakeReasons r = some l ∧ (l.map Prod.fst).Nodup) ∧
    remainderWakeReasons
      ("wake_reason=0:\"100 wlan_wake\" wake_reason=1:\"100 wlan_wake\"".toList)
      = some [("100 wlan_wake".toList, true)] := by
  refine ⟨wakeReasons_mem_iff, wakeReasons_keys_nodup, ?_⟩
  decide

/-- Claim C2: ParseHistoryV2Line fails exactly when the trimmed line does
not match the Format-2 pattern (including the empty string); every
matching line succeeds — even when the month-day/time composition is not a
valid calendar timestamp, as for `13-40 ...` — and the returned entry's
three containers are present (never nil), possibly empty. -/
theorem claim_C2 :
    ∀ line now,
      ((ParseHistoryV2Line line now = none) ↔
        historyMatchV2 (trimSpace line) = none) ∧
      (∀ e, ParseHistoryV2Line line now = some e →
        e.States ≠ none ∧ e.WakeReasons ≠ none ∧ e.RailCharges ≠ none) ∧
      ParseHistoryV2Line [] now = none ∧
      (ParseHistoryV2Line ("13-40 00:00:00.000 1 a x".toList) now).isSome
        = true := by
  intro line now
  refine ⟨?_, ?_, ?_, ?_⟩
  · cases hm : historyMatchV2 (trimSpace line) <;> simp [ParseHistoryV2Line, hm]
  · intro e he
    cases hm : historyMatchV2 (trimSpace line) with
    | none =>
      rw [ParseHistoryV2Line, hm] at he
      exact Option.noConfusion he
    | some g =>
      rw [ParseHistoryV2Line, hm] at he
      have he' := (Option.some.injEq _ _).mp he
      rw [← he']
      refine ⟨?_, ?_, ?_⟩ <;>
        simp [wakePass_char, statePass_char, kvPass_States,
          kvPass_WakeReasons, kvPass_RailCharges, freshEntry]
  · rfl
  · rfl

/-- Claim C3: the detector scans lines in document order, answers 1 at the
first line whose trimmed form begins with `9,h,`, answers 2 at the first
line matching the Format-2 pattern, and defaults to 1 (also on empty
input); in particular a legacy-marker line occurring before any
Format-2-matching line forces the answer 1. -/
theorem claim_C3 :
    (∀ text, DetectHistoryFormatVersion text = detectSpec text) ∧
    (∀ text i j, firstIdxWhere isLegacyLine (splitNl text) = some i →
      firstIdxWhere isV2Line (splitNl text) = some j → i < j →
      DetectHistoryFormatVersion text = 1) ∧
    DetectHistoryFormatVersion [] = 1 := by
  refine ⟨?_, ?_, ?_⟩
  · intro text
    unfold DetectHistoryFormatVersion detectSpec
    exact detectGo_eq (splitNl text)
  · intro text i j hi hj hij
    unfold DetectHistoryFormatVersion
    rw [detectGo_eq (splitNl text), hi, hj]
    dsimp only
    rw [if_pos (Nat.le_of_lt hij)]
  · rfl

/-- Claim C5: the key/value pass is the fold of the switch over all
scanned tokens, and a token that is a recognized numeric identifier with
an uncoercible value, or whose identifier is outside the vocabulary,
changes nothing: removing it from the token sequence gives the same entry,
so every remaining token is still processed and no error arises. -/
theorem claim_C5 :
    (∀ e line, parseKeyValuePairsV2 e line = (kvScan line).foldl kvStep e) ∧
    (∀ (e : BatteryHistoryV2Entry) (xs ys : List (Str × Str)) (t : Str × Str),
      badNumericToken t ∨ t.1 ∉ recognizedKeys →
      (xs ++ t :: ys).foldl kvStep e = (xs ++ ys).foldl kvStep e) := by
  refine ⟨fun e line => rfl, ?_⟩
  intro e xs ys t ht
  rw [List.foldl_append, List.foldl_append, List.foldl_cons]
  rcases ht with hb | hu
  · rw [kvStep_skip_bad _ _ hb]
  · rw [kvStep_skip_unrecognized _ _ hu]

/-- Claim C8: for every entry whose three containers are present and every
remainder, the three extraction passes may run in any relative order with
the same resulting entry, and re-running the three passes on the identical
remainder leaves every field unchanged. -/
theorem claim_C8 :
    ∀ (e : BatteryHistoryV2Entry) (r : Str),
      e.States.isSome = true → e.WakeReasons.isSome = true →
      e.RailCharges.isSome = true → orderIndependentAt e r := by
  intro e r _ _ _
  unfold orderIndependentAt
  refine ⟨?_, ?_, ?_, ?_, ?_, ?_⟩
  · rw [state_kv_comm]
  · rw [← wake_kv_comm]
  · rw [state_wake_comm, ← wake_kv_comm]
  · rw [state_wake_comm, state_kv_comm]
  · rw [state_kv_comm, state_wake_comm, ← wake_kv_comm]
  · rw [state_wake_comm, state_kv_comm, statePass_idem, ← wake_kv_comm,
      kvPass_idem, wakePass_idem]

/-- Witness for claim C8 at a concrete entry and remainder. -/
theorem claim_C8_witness :
    ((freshEntry (GoTime.wallClock 0)).States.isSome = true ∧
     (freshEntry (GoTime.wallClock 0)).WakeReasons.isSome = true ∧
     (freshEntry (GoTime.wallClock 0)).RailCharges.isSome = true) ∧
    orderIndependentAt (freshEntry (GoTime.wallClock 0))
      ("+running volt=4 wake_reason=0:\"100 w\"".toList) :=
  ⟨⟨rfl, rfl, rfl⟩, claim_C8 _ _ rfl rfl rfl⟩

/-- Claim C9 counterexample: on the grammar-conforming line `13-40 ...`
(month 13, so the calendar composition fails) the parser substitutes the
current wall-clock time, and two invocations at different wall-clock
readings return different entries. -/
theorem claim_C9_counterexample :
    ¬ (ParseHistoryV2Line ("13-40 00:00:00.000 1 a x".toList) 0 =
       ParseHistoryV2Line ("13-40 00:00:00.000 1 a x".toList) 1) := by
  decide

/-- Claim C9 (amended): the parser is deterministic in everything except
the wall-clock fallback: two invocations agree on failure, agree on every
field but Timestamp, and agree completely whenever the month-day/time
composition forms a valid calendar timestamp. -/
theorem claim_C9 : ∀ line n1 n2, parseNowAgnosticAt line n1 n2 := by
  intro line n1 n2
  unfold parseNowAgnosticAt
  cases hm : historyMatchV2 (trimSpace line) with
  | none =>
    constructor
    · rw [ParseHistoryV2Line, hm, ParseHistoryV2Line, hm]
    · intro e1 e2 he1 he2
      rw [ParseHistoryV2Line, hm] at he1
      exact Option.noConfusion he1
  | some g =>
    have hrun : ∀ n, ParseHistoryV2Line line n = some
        (parseWakeReasonsV2 (parseKeyValuePairsV2 (parseStateTransitionsV2
          (freshEntry (mkTimestamp g.monthDay g.timeOfDay n)) g.remainder)
          g.remainder) g.remainder) := by
      intro n
      rw [ParseHistoryV2Line, hm]
    have hshift : ∀ t,
        parseWakeReasonsV2 (parseKeyValuePairsV2 (parseStateTransitionsV2
          (freshEntry t) g.remainder) g.remainder) g.remainder =
        { parseWakeReasonsV2 (parseKeyValuePairsV2 (parseStateTransitionsV2
            (freshEntry (GoTime.wallClock 0)) g.remainder) g.remainder)
            g.remainder
          with Timestamp := t } := by
      intro t
      rw [show freshEntry t =
          { freshEntry (GoTime.wallClock 0) with Timestamp := t } from rfl,
        statePass_set_Timestamp, kvPass_set_Timestamp, wakePass_set_Timestamp]
    constructor
    · rw [hrun n1, hrun n2]
      rfl
    · intro e1 e2 he1 he2
      rw [hrun n1] at he1
      rw [hrun n2] at he2
      have he1' := (Option.some.injEq _ _).mp he1
      have he2' := (Option.some.injEq _ _).mp he2
      subst he1'
      subst he2'
      rw [hshift (mkTimestamp g.monthDay g.timeOfDay n1),
        hshift (mkTimestamp g.monthDay g.timeOfDay n2)]
      constructor
      · rfl
      · intro y mo dy hr mi se ms hpt
        have hp1 : mkTimestamp g.monthDay g.timeOfDay n1 =
            GoTime.parsed y mo dy hr mi se ms := hpt
        have hp2 := mkTimestamp_parsed_stable g.monthDay g.timeOfDay n1 n2
          y mo dy hr mi se ms hp1
        rw [hp1, hp2]

/-- Claim C10: the parser never assigns TimestampMs, so it stays at its
zero value on every successfully parsed entry, and the projected record's
start offset is therefore 0. -/
theorem claim_C10 :
    ∀ line now e, ParseHistoryV2Line line now = some e →
      e.TimestampMs = 0 ∧ (ConvertToCSVEntry e).Start = 0 := by
  intro line now e he
  cases hm : historyMatchV2 (trimSpace line) with
  | none =>
    rw [ParseHistoryV2Line, hm] at he
    exact Option.noConfusion he
  | some g =>
    rw [ParseHistoryV2Line, hm] at he
    have he' := (Option.some.injEq _ _).mp he
    have hts : e.TimestampMs = 0 := by
      rw [← he']
      simp [wakePass_char, statePass_char, kvPass_TimestampMs, freshEntry]
    exact ⟨hts, hts⟩

/-- Witness for claim C2 at a concrete line. -/
theorem claim_C2_witness :
    ParseHistoryV2Line ("01-01 00:00:00.000 0 a b".toList) 0 = some entry0101 ∧
    (entry0101.States ≠ none ∧ entry0101.WakeReasons ≠ none ∧
      entry0101.RailCharges ≠ none) :=
  ⟨by decide, (claim_C2 ("01-01 00:00:00.000 0 a b".toList) 0).2.1
    entry0101 (by decide)⟩

/-- Witness for claim C3 at a concrete document with a legacy-marker line
before a Format-2 line. -/
theorem claim_C3_witness :
    firstIdxWhere isLegacyLine
      (splitNl ("9,h,0,Bl=52\n01-01 00:00:00.000 1 a b".toList)) = some 0 ∧
    firstIdxWhere isV2Line
      (splitNl ("9,h,0,Bl=52\n01-01 00:00:00.000 1 a b".toList)) = some 1 ∧
    0 < 1 ∧
    DetectHistoryFormatVersion
      ("9,h,0,Bl=52\n01-01 00:00:00.000 1 a b".toList) = 1 :=
  ⟨by decide, by decide, by decide,
    claim_C3.2.1 ("9,h,0,Bl=52\n01-01 00:00:00.000 1 a b".toList) 0 1
      (by decide) (by decide) (by decide)⟩

/-- Witness for claim C5 at a concrete token sequence: an uncoercible
`temp` value is skipped and the later `status` token is still applied. -/
theorem claim_C5_witness :
    (badNumericToken ("temp".toList, "abc".toList) ∨
      ("temp".toList : Str) ∉ recognizedKeys) ∧
    ([(("volt".toList : Str), ("10".toList : Str))] ++
        ("temp".toList, "abc".toList) ::
        [(("status".toList : Str), ("ok".toList : Str))]).foldl kvStep
      (freshEntry (GoTime.wallClock 0)) =
    ([(("volt".toList : Str), ("10".toList : Str))] ++
        [(("status".toList : Str), ("ok".toList : Str))]).foldl kvStep
      (freshEntry (GoTime.wallClock 0)) :=
  ⟨by
      left
      unfold badNumericToken
      exact Or.inl ⟨Or.inr (Or.inl rfl), by decide⟩,
    claim_C5.2 (freshEntry (GoTime.wallClock 0)) _ _ _ (by
      left
      unfold badNumericToken
      exact Or.inl ⟨Or.inr (Or.inl rfl), by decide⟩)⟩

/-- Witness for claim C9 at a concrete line whose timestamp composition is
valid: both invocations return the same entry. -/
theorem claim_C9_witness :
    ParseHistoryV2Line ("01-01 00:00:00.000 0 a b".toList) 0
      = some entry0101 ∧
    ParseHistoryV2Line ("01-01 00:00:00.000 0 a b".toList) 1
      = some entry0101 ∧
    entry0101 = { entry0101 with Timestamp := entry0101.Timestamp } :=
  ⟨by decide, by decide,
    ((claim_C9 ("01-01 00:00:00.000 0 a b".toList) 0 1).2 entry0101 entry0101
      (by decide) (by decide)).1⟩

/-- Witness for claim C10 at a concrete parsed line. -/
theorem claim_C10_witness :
    ParseHistoryV2Line ("01-01 00:00:00.000 0 a b".toList) 0 = some entry0101 ∧
    (entry0101.TimestampMs = 0 ∧ (ConvertToCSVEntry entry0101).Start = 0) :=
  ⟨by decide, claim_C10 ("01-01 00:00:00.000 0 a b".toList) 0 entry0101
    (by decide)⟩
